import Mathlib

/-!
Verification development for the MindM teaching-design web application.

This file gives a shallow embedding of the parts of the source relevant to
the frozen claims:

* `src/schemas/teaching_design_schema.py` — the `TeachingDesignData`
  dataclass (`from_dict` / `to_dict`), `validate_teaching_design_data`,
  and the content-coverage helpers;
* `src/docx_processor/template_processor.py` —
  `TemplateProcessor._format_learning_objectives` and
  `TemplateProcessor._convert_to_template_data`;
* `src/llm/clients/aliyun_client.py` — the retry behaviour of
  `AliyunClient.call_model` versus
  `AliyunClient.chat_with_qwen_long_and_files`;
* `src/app.py` — the task-status writes of the `upload` handler and the
  status read of `get_task_status`.

Python dynamic values are modelled by an inductive `PyVal`; dicts are
association lists (Python dicts have unique keys, so lookups take the
first binding).  Fallible Python code (code that can raise) is modelled
in `Except String`; code that cannot raise is modelled as plain
functions.  All recursion is structural so that closed instances reduce
by `rfl` / `decide`.
-/

/-- Model of a Python value as produced by `json.loads` or stored in the
dataclasses of the schema module.  Floats are carried as their literal
text (the code under verification never computes with them). -/
inductive PyVal where
  | str (s : String)
  | int (n : Int)
  | float (lit : String)
  | bool (b : Bool)
  | pynone
  | list (xs : List PyVal)
  | dict (xvs : List (String × PyVal))

/-- Model of a Python dict with string keys (the only kind the schema
module manipulates): an association list, first binding wins. -/
abbrev PyDict := List (String × PyVal)

/-- Lookup in a modelled dict: `d.get(k)` / `k in d`. -/
def pyGet (d : PyDict) (k : String) : Option PyVal :=
  (d.find? (fun kv => kv.1 == k)).map (fun kv => kv.2)

/-- Membership test `k in d` on a modelled dict. -/
def pyHasKey (d : PyDict) (k : String) : Bool :=
  (pyGet d k).isSome

/-- Characters stripped by Python `str.strip()` (the whitespace actually
occurring in this code base; exotic Unicode spaces are not needed). -/
def isPySpace (c : Char) : Bool :=
  c = ' ' || c = '\t' || c = '\n' || c = '\r' ||
  c = '\x0b' || c = '\x0c' || c = ' ' || c = '　'

/-- Python `str.strip()`. -/
def pyStrip (s : String) : String :=
  String.mk (((s.data.dropWhile isPySpace).reverse.dropWhile isPySpace).reverse)

/-- Python `str.lower()` (ASCII case folding; CJK characters are
unaffected, exactly as in Python for the characters this code uses). -/
def pyLower (s : String) : String :=
  String.mk (s.data.map Char.toLower)

/-- Helper for `needle in haystack`: is `nd` a contiguous sublist? -/
def charsContain (nd : List Char) : List Char → Bool
  | [] => nd.isEmpty
  | c :: t => nd.isPrefixOf (c :: t) || charsContain nd t

/-- Python substring test `nd in hay` on strings. -/
def strContains (hay nd : String) : Bool :=
  charsContain nd.data hay.data

/-- Splitting worker for `str.split(sep)` with a non-empty separator.
Fuel is the character count, each step consumes at least one character. -/
def pySplitGo (sep : List Char) : Nat → List Char → List Char → List String
  | 0, acc, rest => [String.mk (acc.reverse ++ rest)]
  | _ + 1, acc, [] => [String.mk acc.reverse]
  | fuel + 1, acc, c :: t =>
    if sep.isPrefixOf (c :: t) then
      String.mk acc.reverse :: pySplitGo sep fuel [] (List.drop (sep.length - 1) t)
    else
      pySplitGo sep fuel (c :: acc) t

/-- Python `s.split(sep)` for a non-empty separator `sep` (the only way
the source calls it): non-overlapping, left to right, empty pieces
kept. -/
def pySplit (s sep : String) : List String :=
  pySplitGo sep.data (s.data.length + 1) [] s.data

/-- Python truthiness of a modelled value (used by `if value:`). -/
def pyTruthy : PyVal → Bool
  | .str s => s != ""
  | .int n => n != 0
  | .float lit => lit != "0.0"
  | .bool b => b
  | .pynone => false
  | .list xs => !xs.isEmpty
  | .dict d => !d.isEmpty

/-- First character of a string, used to discriminate disjoint
error-message families. -/
def firstChar (s : String) : Option Char :=
  s.data.head?

/-- Required top-level fields, from `TEACHING_DESIGN_JSON_SCHEMA["required"]`
(`src/schemas/teaching_design_schema.py`, lines 138-145). -/
def requiredFields : List String :=
  ["lesson_name", "grade_level", "subject", "textbook_version",
   "lesson_period", "teacher_school", "teacher_name", "summary",
   "content_analysis", "learner_analysis", "learning_objectives",
   "lesson_structure", "learning_activities",
   "blackboard_design", "homework_extension", "materials_design",
   "reflection_thinking_points"]

/-- Required fields of one activity entry (line 241 of the schema file). -/
def requiredActivityFields : List String :=
  ["name", "teacher_activity", "student_activity", "activity_intent"]

/-- Required fields of one thinking-point entry (line 255). -/
def requiredPointFields : List String :=
  ["point_type", "description"]

/-- Fields of the required set absent from the candidate (the loop at
lines 228-230 collects them in schema order, one pass). -/
def missingFields (data : PyDict) : List String :=
  requiredFields.filter (fun f => !pyHasKey data f)

/-- Error text produced for one missing required field. -/
def missingFieldMsg (f : String) : String :=
  "缺少必需字段: " ++ f

/-- Errors of the required-field check, lines 227-230. -/
def missingFieldErrors (data : PyDict) : List String :=
  (missingFields data).map missingFieldMsg

/-- Errors for one activity entry (`i` is the zero-based index), lines
237-244. -/
def activityEntryErrors (i : Nat) : PyVal → List String
  | .dict a =>
    (requiredActivityFields.filter (fun f => !pyHasKey a f)).map
      (fun f => "学习活动 " ++ toString (i + 1) ++ " 缺少字段: " ++ f)
  | _ => ["学习活动 " ++ toString (i + 1) ++ " 必须是字典"]

/-- Errors of the `learning_activities` structural check, lines 233-244. -/
def activityListErrors (data : PyDict) : List String :=
  match pyGet data "learning_activities" with
  | Option.none => []
  | some (.list acts) =>
    (acts.enum.map (fun ia => activityEntryErrors ia.1 ia.2)).flatten
  | some _ => ["learning_activities 必须是列表"]

/-- Errors for one thinking-point entry, lines 251-258. -/
def pointEntryErrors (i : Nat) : PyVal → List String
  | .dict p =>
    (requiredPointFields.filter (fun f => !pyHasKey p f)).map
      (fun f => "思维训练点 " ++ toString (i + 1) ++ " 缺少字段: " ++ f)
  | _ => ["思维训练点 " ++ toString (i + 1) ++ " 必须是字典"]

/-- Errors of the `reflection_thinking_points` structural check, lines
247-258. -/
def pointListErrors (data : PyDict) : List String :=
  match pyGet data "reflection_thinking_points" with
  | Option.none => []
  | some (.list pts) =>
    (pts.enum.map (fun ip => pointEntryErrors ip.1 ip.2)).flatten
  | some _ => ["reflection_thinking_points 必须是列表"]

/-- Phase keywords of the fallback scan, line 277. -/
def structureKeywords : List String :=
  ["导入", "新知", "探究", "巩固", "练习", "总结", "拓展", "延伸"]

/-- Fallback keyword scan of lines 276-288: grow `cur` one character at
a time; whenever some keyword occurs in the grown prefix (and it strips
to something non-empty) emit the stripped prefix and restart. -/
def keywordScanGo : List Char → String → List String
  | [], cur => if pyStrip cur ≠ "" then [pyStrip cur] else []
  | c :: rest, cur =>
    let cur' := cur.push c
    if structureKeywords.any (fun kw => strContains cur' kw) && pyStrip cur' ≠ "" then
      pyStrip cur' :: keywordScanGo rest ""
    else
      keywordScanGo rest cur'

/-- Parse of the lesson-structure free text into phase names, lines
266-288.  The separator list of the source is `["→", "->", "-", "→", "→"]`;
the repeated arrows are identical characters, so only the first three
separators can ever match. -/
def parseStructureParts (lesson_structure : String) : List String :=
  if strContains lesson_structure "→" then
    (pySplit lesson_structure "→").map pyStrip
  else if strContains lesson_structure "->" then
    (pySplit lesson_structure "->").map pyStrip
  else if strContains lesson_structure "-" then
    (pySplit lesson_structure "-").map pyStrip
  else
    keywordScanGo lesson_structure.data ""

/-- Errors of the structure/activity-count consistency check, lines
261-300.  Both fields must be present with the guarded types, the parse
must be non-empty, and then at most one error is produced by the
`if`/`elif` chain. -/
def structureCountErrors (data : PyDict) : List String :=
  match pyGet data "lesson_structure", pyGet data "learning_activities" with
  | some (.str lesson_structure), some (.list acts) =>
    let parts := parseStructureParts lesson_structure
    if parts.length > 0 then
      if parts.length > 8 then
        ["课例结构环节数量(" ++ toString parts.length ++
         ")超过最大限制(8个)，请简化教学环节"]
      else if acts.length > 8 then
        ["学习活动数量(" ++ toString acts.length ++
         ")超过最大限制(8个)，请减少学习活动"]
      else if acts.length < parts.length then
        ["学习活动数量(" ++ toString acts.length ++ ")少于课例结构环节数量(" ++
         toString parts.length ++ ")，请确保每个结构环节都有对应的学习活动"]
      else if acts.length > parts.length + 2 then
        ["学习活动数量(" ++ toString acts.length ++ ")明显多于课例结构环节数量(" ++
         toString parts.length ++ ")，请检查是否有多余的活动"]
      else []
    else []
  | _, _ => []

/-- Python iteration `for x in v`: lists yield elements, strings yield
one-character strings, dicts yield their keys; other values raise
`TypeError`. -/
def pyIter : PyVal → Except String (List PyVal)
  | .list xs => .ok xs
  | .str s => .ok (s.data.map (fun c => .str (String.mk [c])))
  | .dict d => .ok (d.map (fun kv => .str kv.1))
  | _ => .error "TypeError: object is not iterable"

/-- Python `len(v)` — raises on values without a length. -/
def pyLen : PyVal → Except String Nat
  | .list xs => .ok xs.length
  | .str s => .ok s.length
  | .dict d => .ok d.length
  | _ => .error "TypeError: object has no len"

/-- Used where the code calls a `str` method (`.lower()`, joining) on a
value: succeeds only for strings, models `AttributeError`/`TypeError`
otherwise. -/
def pyAsStr : PyVal → Except String String
  | .str s => .ok s
  | _ => .error "TypeError: expected str"

/-- Dict `a.get(k, default)` with a string-default, as used throughout
the coverage helpers. -/
def pyGetD (a : PyDict) (k : String) (dflt : PyVal) : PyVal :=
  (pyGet a k).getD dflt

/-- Hashability for Python `set(...)`: lists and dicts raise. -/
def pyHashable : PyVal → Bool
  | .list _ => false
  | .dict _ => false
  | _ => true

/-- Python `==` on hashable scalar values (the only values that reach
`set` in this code).  Numeric `int`/`bool` cross equality is modelled;
`int`/`float` cross equality is not needed by any claim and floats
compare by literal. -/
def scalarEq : PyVal → PyVal → Bool
  | .str a, .str b => a == b
  | .int a, .int b => a == b
  | .bool a, .bool b => a == b
  | .int a, .bool b => a == (if b then (1 : Int) else 0)
  | .bool a, .int b => (if a then (1 : Int) else 0) == b
  | .float a, .float b => a == b
  | .pynone, .pynone => true
  | _, _ => false

/-- Distinct elements under `scalarEq` (size of `set(vs)`). -/
def scalarDedup : List PyVal → List PyVal
  | [] => []
  | v :: rest =>
    let r := scalarDedup rest
    if r.any (scalarEq v) then r else v :: r

/-- Python `len(set(vs))`; raises on unhashable members. -/
def pySetSize (vs : List PyVal) : Except String Nat :=
  if vs.all pyHashable then .ok (scalarDedup vs).length
  else .error "TypeError: unhashable type"

/-- Generic verbs of the objectives check, schema line 349. -/
def genericTerms : List String := ["了解", "知道", "掌握", "理解", "学会"]

/-- Required basic phases, schema line 357. -/
def requiredPhases : List String := ["导入", "总结"]

/-- Teaching-method keywords, schema lines 456-460. -/
def methodKeywords : List String :=
  ["讨论", "探究", "合作学习", "小组活动", "实验", "观察", "分析", "比较",
   "归纳", "演绎", "案例教学", "情境教学", "问题导向", "任务驱动",
   "自主学习", "合作探究", "实践操作", "演示", "讲解", "练习"]

/-- Teaching-requirement keywords, schema lines 482-485. -/
def requirementKeywords : List String :=
  ["掌握", "理解", "运用", "分析", "评价", "创造", "应用", "学会",
   "能够", "可以", "必须", "需要", "要求", "目标", "重点", "难点"]

/-- Knowledge-point indicator words, schema lines 512-516. -/
def knowledgeIndicators : List String :=
  ["概念", "定义", "原理", "定理", "公式", "方法", "技巧", "技能",
   "性质", "特征", "特点", "规律", "法则", "规则", "步骤", "过程",
   "类型", "分类", "结构", "组成", "关系", "联系", "区别", "对比"]

/-- Core teaching keywords of the alignment check, schema line 425. -/
def coreKeywords : List String := ["掌握", "理解", "运用", "分析", "重点", "难点"]

/-- Embeds `_extract_teaching_methods` (schema lines 443-467): all
method keywords occurring in the lowered content, in keyword order. -/
def extract_teaching_methods (content : String) : List String :=
  methodKeywords.filter (fun kw => strContains (pyLower content) kw)

/-- Embeds `_extract_teaching_requirements` (schema lines 469-497):
sentences (split on `。`) whose lowering contains a requirement keyword
and whose stripped length exceeds 5, stripped, first five kept. -/
def extract_teaching_requirements (content : String) : List String :=
  (((pySplit content "。").filter
      (fun sentence =>
        requirementKeywords.any (fun kw => strContains (pyLower sentence) kw) &&
        (pyStrip sentence).length > 5)).map pyStrip).take 5

/-- Embeds `_extract_knowledge_points` (schema lines 499-526): sentences
containing a knowledge indicator, stripped, deduplicated (only the count
is consumed downstream; Python `list(set(...))` order is unspecified). -/
def extract_knowledge_points (content : String) : List String :=
  (((pySplit content "。").filter
      (fun sentence =>
        knowledgeIndicators.any (fun kw => strContains (pyLower sentence) kw) &&
        (pyStrip sentence).length > 5)).map pyStrip).dedup

/-- Joined text of one activity dict: `" ".join([...])` over the four
sub-fields (defaults `""`) — raises if a present sub-field is not a
string (schema lines 329-334 and 400-405). -/
def activityJoinedText (a : PyDict) : Except String String := do
  let parts ← [pyGetD a "name" (.str ""), pyGetD a "teacher_activity" (.str ""),
               pyGetD a "student_activity" (.str ""),
               pyGetD a "activity_intent" (.str "")].mapM pyAsStr
  pure (String.intercalate " " parts)

/-- Lowered joined texts of the dict-shaped members of an iterated
activities value (non-dict members are skipped by the `isinstance`
guard). -/
def dictActivityTexts : List PyVal → Except String (List String)
  | [] => .ok []
  | .dict a :: rest => do
    let t ← activityJoinedText a
    let r ← dictActivityTexts rest
    pure (pyLower t :: r)
  | _ :: rest => dictActivityTexts rest

/-- The `activity_intent` values of the dict-shaped members (schema line
368). -/
def dictActivityIntents : List PyVal → List PyVal
  | [] => []
  | .dict a :: rest => pyGetD a "activity_intent" (.str "") :: dictActivityIntents rest
  | _ :: rest => dictActivityIntents rest

/-- Alignment block 1 (schema lines 393-416): teaching methods of the
source insufficiently reflected in the activity texts. -/
def alignMethodErrors (data : PyDict) (original_content : String) :
    Except String (List String) := do
  let methods := extract_teaching_methods original_content
  if !methods.isEmpty then do
    let acts := pyGetD data "learning_activities" (.list [])
    let items ← pyIter acts
    let activityTexts ← dictActivityTexts items
    let methodsFound :=
      (methods.filter (fun m =>
        activityTexts.any (fun t => strContains t (pyLower m)))).length
    if methodsFound < methods.length / 2 then
      pure ["文档中提到了多种教学方法，但教学设计中体现不足，建议增加小组讨论、合作探究等活动"]
    else pure []
  else pure []

/-- Alignment block 2 (lines 419-432): core requirement keywords in
objectives/structure. -/
def alignRequirementErrors (data : PyDict) (original_content : String) :
    Except String (List String) := do
  let reqs := extract_teaching_requirements original_content
  if !reqs.isEmpty then do
    let lo ← pyAsStr (pyGetD data "learning_objectives" (.str ""))
    let ls ← pyAsStr (pyGetD data "lesson_structure" (.str ""))
    let found := coreKeywords.filter
      (fun kw => strContains (pyLower lo) kw || strContains (pyLower ls) kw)
    if found.length < 2 then
      pure ["教学设计中缺少文档要求的核心教学要素，请确保包含掌握、理解、运用等关键要求"]
    else pure []
  else pure []

/-- Alignment block 3 (lines 435-439): knowledge points versus activity
count. -/
def alignKnowledgeErrors (data : PyDict) (original_content : String) :
    Except String (List String) := do
  let kps := extract_knowledge_points original_content
  if kps.length > 1 then do
    let acts := pyGetD data "learning_activities" (.list [])
    let n ← pyLen acts
    if n < kps.length then
      pure ["文档中包含" ++ toString kps.length ++ "个不同知识点，但教学设计只有" ++
            toString n ++ "个环节，建议为每个知识点设计独立的环节"]
    else pure []
  else pure []

/-- Embeds `_check_content_alignment` (schema lines 378-441). -/
def check_content_alignment (data : PyDict) (original_content : String) :
    Except String (List String) := do
  let errs1 ← alignMethodErrors data original_content
  let errs2 ← alignRequirementErrors data original_content
  let errs3 ← alignKnowledgeErrors data original_content
  pure (errs1 ++ errs2 ++ errs3)

/-- Coverage block 1 (schema lines 345-351): over-generic learning
objectives. -/
def coverageObjectiveErrors (data : PyDict) : Except String (List String) := do
  let lo := pyGetD data "learning_objectives" (.str "")
  if pyTruthy lo then do
    let s ← pyAsStr lo
    if (genericTerms.take 3).all (fun t => strContains (pyLower s) t) then
      pure ["学习目标可能过于通用，请确保基于上传文档的具体内容制定目标"]
    else pure []
  else pure []

/-- Coverage block 2 (lines 354-361): opening/closing phases in the
lesson structure. -/
def coveragePhaseErrors (data : PyDict) : Except String (List String) := do
  let ls := pyGetD data "lesson_structure" (.str "")
  if pyTruthy ls then do
    let s ← pyAsStr ls
    let missing := requiredPhases.filter (fun p => !strContains (pyLower s) p)
    if !missing.isEmpty then
      pure ["课例结构缺少基本环节: " ++ String.intercalate ", " missing]
    else pure []
  else pure []

/-- Coverage block 3 (lines 364-365): fewer than 3 activities. -/
def coverageActivityCountErrors (data : PyDict) : Except String (List String) := do
  let n ← pyLen (pyGetD data "learning_activities" (.list []))
  if n < 3 then
    pure ["学习活动数量可能不足以覆盖文档中的所有重要内容，建议增加教学环节"]
  else pure []

/-- Coverage block 4 (lines 368-370): duplicate activity intents. -/
def coverageDuplicateIntentErrors (data : PyDict) : Except String (List String) := do
  let items ← pyIter (pyGetD data "learning_activities" (.list []))
  let intents := dictActivityIntents items
  let distinct ← pySetSize intents
  if intents.length ≠ distinct then
    pure ["发现重复的活动意图，请确保每个学习活动都有独特的目的"]
  else pure []

/-- Embeds `_check_content_coverage` (schema lines 309-376).  The
iteration over `learning_activities` at line 326 is unguarded: a
non-iterable value raises. -/
def check_content_coverage (data : PyDict) (original_content : String) :
    Except String (List String) := do
  let items ← pyIter (pyGetD data "learning_activities" (.list []))
  let _activityContentKeywords ← dictActivityTexts items
  let errs1 ← coverageObjectiveErrors data
  let errs2 ← coveragePhaseErrors data
  let errs3 ← coverageActivityCountErrors data
  let errs4 ← coverageDuplicateIntentErrors data
  let alignErrs ← check_content_alignment data original_content
  pure (errs1 ++ errs2 ++ errs3 ++ errs4 ++ alignErrs)

/-- Embeds `validate_teaching_design_data` (schema lines 213-307).  The
result is `(isValid, errors)`; a raised exception is an `Except.error`. -/
def validate_teaching_design_data (data : PyDict) (original_content : Option String) :
    Except String (Bool × List String) := do
  let structuralErrors :=
    missingFieldErrors data ++ activityListErrors data ++
    pointListErrors data ++ structureCountErrors data
  let covErrors ←
    match original_content with
    | some oc =>
      if oc != "" && pyHasKey data "learning_activities" then
        check_content_coverage data oc
      else pure []
    | Option.none => pure []
  let errors := structuralErrors ++ covErrors
  pure (errors.isEmpty, errors)

/-- Embeds the `ActivityInfo` dataclass (schema lines 12-18).  Python
dataclasses do not enforce the `str` annotations, so fields hold
arbitrary values. -/
structure ActivityInfo where
  name : PyVal
  teacher_activity : PyVal
  student_activity : PyVal
  activity_intent : PyVal

/-- Embeds the `ThinkingPoint` dataclass (schema lines 20-24). -/
structure ThinkingPoint where
  point_type : PyVal
  description : PyVal

/-- Embeds the `TeachingDesignData` dataclass (schema lines 26-48),
fields in declaration order. -/
structure TeachingDesignData where
  lesson_name : PyVal
  grade_level : PyVal
  subject : PyVal
  textbook_version : PyVal
  lesson_period : PyVal
  teacher_school : PyVal
  teacher_name : PyVal
  summary : PyVal
  content_analysis : PyVal
  learner_analysis : PyVal
  learning_objectives : PyVal
  lesson_structure : PyVal
  learning_activities : List ActivityInfo
  blackboard_design : PyVal
  homework_extension : PyVal
  materials_design : PyVal
  reflection_thinking_points : List ThinkingPoint

/-- Does a dict carry exactly the given keyword parameters?  (`cls(**d)`
succeeds exactly when each parameter is supplied once and nothing else
is; Python dicts cannot repeat keys, so presence of all keys together
with the length pins the key multiset.) -/
def hasExactKeys (d : PyDict) (keys : List String) : Bool :=
  d.length == keys.length && keys.all (fun k => pyHasKey d k)

/-- Embeds `ActivityInfo(**activity_data)` (schema line 65): raises
unless the value is a mapping with exactly the four parameters. -/
def mkActivityInfo : PyVal → Except String ActivityInfo
  | .dict d =>
    if hasExactKeys d requiredActivityFields then
      .ok ⟨pyGetD d "name" (.str ""), pyGetD d "teacher_activity" (.str ""),
           pyGetD d "student_activity" (.str ""), pyGetD d "activity_intent" (.str "")⟩
    else .error "TypeError: ActivityInfo() arguments mismatch"
  | _ => .error "TypeError: argument after ** must be a mapping"

/-- Embeds `ThinkingPoint(**point_data)` (schema line 71). -/
def mkThinkingPoint : PyVal → Except String ThinkingPoint
  | .dict d =>
    if hasExactKeys d requiredPointFields then
      .ok ⟨pyGetD d "point_type" (.str ""), pyGetD d "description" (.str "")⟩
    else .error "TypeError: ThinkingPoint() arguments mismatch"
  | _ => .error "TypeError: argument after ** must be a mapping"

/-- Embeds `TeachingDesignData.from_dict` (schema lines 58-92): the two
list fields are iterated and built eagerly (raising on malformed
entries), every other field defaults to `''` via `data.get`. -/
def TeachingDesignData.from_dict (data : PyDict) : Except String TeachingDesignData := do
  let activities ←
    match pyGet data "learning_activities" with
    | Option.none => pure []
    | some v => do
      let items ← pyIter v
      items.mapM mkActivityInfo
  let thinking_points ←
    match pyGet data "reflection_thinking_points" with
    | Option.none => pure []
    | some v => do
      let items ← pyIter v
      items.mapM mkThinkingPoint
  pure ⟨pyGetD data "lesson_name" (.str ""), pyGetD data "grade_level" (.str ""),
        pyGetD data "subject" (.str ""), pyGetD data "textbook_version" (.str ""),
        pyGetD data "lesson_period" (.str ""), pyGetD data "teacher_school" (.str ""),
        pyGetD data "teacher_name" (.str ""), pyGetD data "summary" (.str ""),
        pyGetD data "content_analysis" (.str ""), pyGetD data "learner_analysis" (.str ""),
        pyGetD data "learning_objectives" (.str ""), pyGetD data "lesson_structure" (.str ""),
        activities, pyGetD data "blackboard_design" (.str ""),
        pyGetD data "homework_extension" (.str ""), pyGetD data "materials_design" (.str ""),
        thinking_points⟩

/-- One activity as `dataclasses.asdict` renders it (field order of the
dataclass). -/
def ActivityInfo.to_dict (a : ActivityInfo) : PyVal :=
  .dict [("name", a.name), ("teacher_activity", a.teacher_activity),
         ("student_activity", a.student_activity), ("activity_intent", a.activity_intent)]

/-- One thinking point as `dataclasses.asdict` renders it. -/
def ThinkingPoint.to_dict (p : ThinkingPoint) : PyVal :=
  .dict [("point_type", p.point_type), ("description", p.description)]

/-- Embeds `TeachingDesignData.to_dict` (schema lines 50-52, i.e.
`dataclasses.asdict`): all fields in declaration order, nested
dataclasses rendered recursively. -/
def TeachingDesignData.to_dict (r : TeachingDesignData) : PyDict :=
  [("lesson_name", r.lesson_name), ("grade_level", r.grade_level),
   ("subject", r.subject), ("textbook_version", r.textbook_version),
   ("lesson_period", r.lesson_period), ("teacher_school", r.teacher_school),
   ("teacher_name", r.teacher_name), ("summary", r.summary),
   ("content_analysis", r.content_analysis), ("learner_analysis", r.learner_analysis),
   ("learning_objectives", r.learning_objectives), ("lesson_structure", r.lesson_structure),
   ("learning_activities", .list (r.learning_activities.map ActivityInfo.to_dict)),
   ("blackboard_design", r.blackboard_design), ("homework_extension", r.homework_extension),
   ("materials_design", r.materials_design),
   ("reflection_thinking_points", .list (r.reflection_thinking_points.map ThinkingPoint.to_dict))]

/-- Wellformedness of a modelled value: it denotes an actual Python
value, i.e. no dict repeats a key.  Every value produced by `json.loads`
or written as a Python literal satisfies this. -/
inductive PyWF : PyVal → Prop where
  | str (s : String) : PyWF (.str s)
  | int (n : Int) : PyWF (.int n)
  | float (l : String) : PyWF (.float l)
  | bool (b : Bool) : PyWF (.bool b)
  | pynone : PyWF .pynone
  | list {xs : List PyVal} : (∀ v ∈ xs, PyWF v) → PyWF (.list xs)
  | dict {d : PyDict} : (d.map Prod.fst).Nodup → (∀ kv ∈ d, PyWF kv.2) → PyWF (.dict d)

/-- Sound sub-relation of Python `==` on values: identical scalars,
elementwise-equal lists, and dicts equal as key-value maps regardless of
insertion order.  (Python `==` additionally equates some cross-type
numbers; those extra equalities are never needed below, and a
`PyEquiv` proof always implies Python `==`.) -/
inductive PyEquiv : PyVal → PyVal → Prop where
  | str (s : String) : PyEquiv (.str s) (.str s)
  | int (n : Int) : PyEquiv (.int n) (.int n)
  | float (l : String) : PyEquiv (.float l) (.float l)
  | bool (b : Bool) : PyEquiv (.bool b) (.bool b)
  | pynone : PyEquiv .pynone .pynone
  | list {xs ys : List PyVal} : List.Forall₂ PyEquiv xs ys → PyEquiv (.list xs) (.list ys)
  | dict {a b : PyDict} : a.length = b.length →
      (∀ kv ∈ a, pyHasKey b kv.1 = true) →
      (∀ kv ∈ a, ∀ w, pyGet b kv.1 = some w → PyEquiv kv.2 w) →
      PyEquiv (.dict a) (.dict b)

/-- JSON whitespace. -/
def isJsonWs (c : Char) : Bool :=
  c = ' ' || c = '\t' || c = '\n' || c = '\r'

/-- Skip JSON whitespace. -/
def skipWs (cs : List Char) : List Char :=
  cs.dropWhile isJsonWs

/-- Hex digit value for `\uXXXX` escapes. -/
def hexVal (c : Char) : Option Nat :=
  let n := c.toNat
  if 48 ≤ n && n ≤ 57 then some (n - 48)
  else if 97 ≤ n && n ≤ 102 then some (n - 87)
  else if 65 ≤ n && n ≤ 70 then some (n - 55)
  else Option.none

/-- Body of a JSON string literal (after the opening quote), strict mode
as in `json.loads`: raw control characters and unknown escapes are
errors.  Lone-surrogate `\u` escapes are approximated by the null
character (no claim exercises them). -/
def parseJStrGo : Nat → List Char → Option (List Char × List Char)
  | 0, _ => Option.none
  | _ + 1, [] => Option.none
  | fuel + 1, c :: rest =>
    if c = '"' then some ([], rest)
    else if c = '\\' then
      match rest with
      | '"' :: r => (parseJStrGo fuel r).map (fun p => ('"' :: p.1, p.2))
      | '\\' :: r => (parseJStrGo fuel r).map (fun p => ('\\' :: p.1, p.2))
      | '/' :: r => (parseJStrGo fuel r).map (fun p => ('/' :: p.1, p.2))
      | 'b' :: r => (parseJStrGo fuel r).map (fun p => ('\x08' :: p.1, p.2))
      | 'f' :: r => (parseJStrGo fuel r).map (fun p => ('\x0c' :: p.1, p.2))
      | 'n' :: r => (parseJStrGo fuel r).map (fun p => ('\n' :: p.1, p.2))
      | 'r' :: r => (parseJStrGo fuel r).map (fun p => ('\r' :: p.1, p.2))
      | 't' :: r => (parseJStrGo fuel r).map (fun p => ('\t' :: p.1, p.2))
      | 'u' :: h1 :: h2 :: h3 :: h4 :: r =>
        match hexVal h1, hexVal h2, hexVal h3, hexVal h4 with
        | some a, some b2, some c2, some d =>
          (parseJStrGo fuel r).map
            (fun p => (Char.ofNat (((a * 16 + b2) * 16 + c2) * 16 + d) :: p.1, p.2))
        | _, _, _, _ => Option.none
      | _ => Option.none
    else if c.toNat < 0x20 then Option.none
    else (parseJStrGo fuel rest).map (fun p => (c :: p.1, p.2))

/-- Value of a digit run. -/
def digitsToNat (ds : List Char) : Nat :=
  ds.foldl (fun acc c => acc * 10 + (c.toNat - '0'.toNat)) 0

/-- JSON number per the `json` module's grammar: `-?(0|[1-9]\d*)`
with optional fraction and exponent.  A number with fraction or exponent
becomes a float carried by its lexeme; otherwise an int. -/
def parseJNum (cs : List Char) : Option (PyVal × List Char) :=
  let (sign, cs1) := match cs with
    | '-' :: r => (true, r)
    | _ => (false, cs)
  let intPart : Option (List Char × List Char) := match cs1 with
    | '0' :: r => some (['0'], r)
    | c :: r =>
      if '1' ≤ c && c ≤ '9' then
        let (ds, r2) := r.span Char.isDigit
        some (c :: ds, r2)
      else Option.none
    | [] => Option.none
  match intPart with
  | Option.none => Option.none
  | some (ip, r2) =>
    let (fracPart, r3) : Option (List Char) × List Char := match r2 with
      | '.' :: r3a =>
        let (ds, r3b) := r3a.span Char.isDigit
        if ds.isEmpty then (Option.none, r2) else (some ds, r3b)
      | _ => (Option.none, r2)
    match fracPart, r3 with
    | Option.none, '.' :: _ => Option.none
    | _, _ =>
      let (expPart, r4) : Option (List Char) × List Char := match r3 with
        | e :: r4a =>
          if e = 'e' || e = 'E' then
            let (sgn, r4b) : List Char × List Char := match r4a with
              | '+' :: rb => (['+'], rb)
              | '-' :: rb => (['-'], rb)
              | _ => ([], r4a)
            let (ds, r4c) := r4b.span Char.isDigit
            if ds.isEmpty then (Option.none, r3) else (some (e :: (sgn ++ ds)), r4c)
          else (Option.none, r3)
        | _ => (Option.none, r3)
      let signChars : List Char := if sign then ['-'] else []
      match fracPart, expPart with
      | Option.none, Option.none =>
        let n : Int := Int.ofNat (digitsToNat ip)
        some (.int (if sign then -n else n), r4)
      | f, e =>
        let fracChars := match f with
          | some ds => '.' :: ds
          | Option.none => []
        let expChars := match e with
          | some ds => ds
          | Option.none => []
        some (.float (String.mk (signChars ++ ip ++ fracChars ++ expChars)), r4)

/-- Comma-separated array elements; `pv` parses one value at the next
lower nesting budget. -/
def parseArrGo (pv : List Char → Option (PyVal × List Char)) :
    Nat → List Char → Option (List PyVal × List Char)
  | 0, _ => Option.none
  | fuel + 1, cs => do
    let (v, r) ← pv cs
    match skipWs r with
    | ',' :: r2 => do
      let (vs, r3) ← parseArrGo pv fuel r2
      some (v :: vs, r3)
    | ']' :: r2 => some ([v], r2)
    | _ => Option.none

/-- Comma-separated object members. -/
def parseObjGo (pv : List Char → Option (PyVal × List Char)) :
    Nat → List Char → Option (List (String × PyVal) × List Char)
  | 0, _ => Option.none
  | fuel + 1, cs =>
    match skipWs cs with
    | '"' :: r => do
      let (kcs, r2) ← parseJStrGo (r.length + 1) r
      match skipWs r2 with
      | ':' :: r3 => do
        let (v, r4) ← pv r3
        match skipWs r4 with
        | ',' :: r5 => do
          let (kvs, r6) ← parseObjGo pv fuel r5
          some ((String.mk kcs, v) :: kvs, r6)
        | '\x7d' :: r5 => some ([(String.mk kcs, v)], r5)
        | _ => Option.none
      | _ => Option.none
    | _ => Option.none

/-- One JSON value; the fuel bounds nesting depth (each level consumes
at least one character, so the character count suffices). -/
def parseJVal : Nat → List Char → Option (PyVal × List Char)
  | 0, _ => Option.none
  | fuel + 1, cs =>
    match skipWs cs with
    | '"' :: r => (parseJStrGo (r.length + 1) r).map (fun p => (.str (String.mk p.1), p.2))
    | '[' :: r =>
      (match skipWs r with
       | ']' :: r2 => some (.list [], r2)
       | r2 => (parseArrGo (parseJVal fuel) (r2.length + 1) r2).map
           (fun p => (.list p.1, p.2)))
    | '\x7b' :: r =>
      (match skipWs r with
       | '\x7d' :: r2 => some (.dict [], r2)
       | r2 => (parseObjGo (parseJVal fuel) (r2.length + 1) r2).map
           (fun p => (.dict p.1, p.2)))
    | 't' :: 'r' :: 'u' :: 'e' :: r => some (.bool true, r)
    | 'f' :: 'a' :: 'l' :: 's' :: 'e' :: r => some (.bool false, r)
    | 'n' :: 'u' :: 'l' :: 'l' :: r => some (.pynone, r)
    | cs2 => parseJNum cs2

/-- Embeds `json.loads` on a string: one JSON value, possibly surrounded
by whitespace; anything else raises `JSONDecodeError` (modelled as
`Option.none`). -/
def jsonLoads (s : String) : Option PyVal :=
  match parseJVal (s.data.length + 1) s.data with
  | some (v, rest) => if (skipWs rest).isEmpty then some v else Option.none
  | Option.none => Option.none

/-- Python `repr` of a value, fuelled (the fuel bounds depth; callers
pass `sizeOf`).  String escaping inside `repr` is elided — no claim
renders a string containing quote characters. -/
def pyReprFuel : Nat → PyVal → String
  | 0, _ => ""
  | _ + 1, .str s => "'" ++ s ++ "'"
  | _ + 1, .int n => toString n
  | _ + 1, .float l => l
  | _ + 1, .bool b => if b then "True" else "False"
  | _ + 1, .pynone => "None"
  | fuel + 1, .list xs =>
    "[" ++ String.intercalate ", " (xs.map (pyReprFuel fuel)) ++ "]"
  | fuel + 1, .dict d =>
    "\x7b" ++
      String.intercalate ", "
        (d.map (fun kv => "'" ++ kv.1 ++ "': " ++ pyReprFuel fuel kv.2)) ++
    "\x7d"

/-- Size of a value, an adequate fuel bound for `pyReprFuel`. -/
def pySize : PyVal → Nat
  | .list [] => 1
  | .list (v :: r) => 1 + pySize v + pySize (.list r)
  | .dict [] => 1
  | .dict ((k, v) :: r) => 1 + pySize v + pySize (.dict r)
  | _ => 1
decreasing_by all_goals (simp_wf; try omega)

/-- Python `str(v)` as used by f-string interpolation: the string itself
for strings, `repr`-style rendering otherwise. -/
def pyStr (v : PyVal) : String :=
  match v with
  | .str s => s
  | _ => pyReprFuel (pySize v) v

/-- One numbered objective from the parsed-JSON-list branch
(`template_processor.py` lines 207-211); `i` is the 1-based number. -/
def renderObjectiveItem (i : Nat) (obj : PyVal) : String :=
  match obj with
  | .dict d =>
    if pyHasKey d "objective" then
      toString i ++ ". " ++ pyStr (pyGetD d "objective" .pynone)
    else toString i ++ ". " ++ pyStr obj
  | _ => toString i ++ ". " ++ pyStr obj

/-- Does a line already carry a numeric prefix `1.` … `9.`
(`line.startswith(('1.', ..., '9.'))`, line 227)? -/
def startsWithNum (l : String) : Bool :=
  match l.data with
  | c :: '.' :: _ => '1' ≤ c && c ≤ '9'
  | _ => false

/-- The renumbering loop of lines 221-231: `i` is the index of the line
in the split (blank lines keep consuming indices), kept lines are the
stripped non-empty ones, unnumbered lines get prefix `i+1`. -/
def numberLinesGo : Nat → List String → List String
  | _, [] => []
  | i, line :: rest =>
    let l := pyStrip line
    if l == "" then numberLinesGo (i + 1) rest
    else if startsWithNum l then l :: numberLinesGo (i + 1) rest
    else (toString (i + 1) ++ ". " ++ l) :: numberLinesGo (i + 1) rest

/-- Embeds `TemplateProcessor._format_learning_objectives`
(`template_processor.py` lines 189-233) on a string argument. -/
def format_learning_objectives (learning_objectives : String) : String :=
  match jsonLoads learning_objectives with
  | some (.list objs) =>
    String.intercalate "\n"
      (objs.enum.map (fun io => renderObjectiveItem (io.1 + 1) io.2))
  | some _ => learning_objectives
  | Option.none =>
    String.intercalate "\n"
      (numberLinesGo 0 (pySplit (pyStrip learning_objectives) "\n"))

/-- The formatter applied to the field value: on a non-string the
`json.loads` `TypeError` is caught, after which `.strip()` raises
`AttributeError` (uncaught). -/
def formatLearningObjectivesVal : PyVal → Except String String
  | .str s => .ok (format_learning_objectives s)
  | _ => .error "AttributeError: object has no attribute strip"

/-- One activity row as `_convert_to_template_data` builds it
(`template_processor.py` lines 167-173): each row carries that
activity's own four fields, in particular its own intent. -/
def convertActivityRow (a : ActivityInfo) : PyVal :=
  .dict [("name", a.name), ("teacher_activity", a.teacher_activity),
         ("student_activity", a.student_activity), ("activity_intent", a.activity_intent)]

/-- One thinking-point row (lines 178-183). -/
def convertPointRow (p : ThinkingPoint) : PyVal :=
  .dict [("point_type", p.point_type), ("description", p.description)]

/-- Embeds `TemplateProcessor._convert_to_template_data` (lines
133-187): scalar fields bound by name, the formatted objectives string,
then one row per list element in original order. -/
def convert_to_template_data (design_data : TeachingDesignData) : Except String PyDict := do
  let learning_objectives ← formatLearningObjectivesVal design_data.learning_objectives
  pure [("lesson_name", design_data.lesson_name),
        ("grade_level", design_data.grade_level),
        ("subject", design_data.subject),
        ("textbook_version", design_data.textbook_version),
        ("lesson_period", design_data.lesson_period),
        ("teacher_school", design_data.teacher_school),
        ("teacher_name", design_data.teacher_name),
        ("summary", design_data.summary),
        ("content_analysis", design_data.content_analysis),
        ("learner_analysis", design_data.learner_analysis),
        ("learning_objectives", .str learning_objectives),
        ("lesson_structure", design_data.lesson_structure),
        ("blackboard_design", design_data.blackboard_design),
        ("homework_extension", design_data.homework_extension),
        ("materials_design", design_data.materials_design),
        ("learning_activities", .list (design_data.learning_activities.map convertActivityRow)),
        ("reflection_thinking_points",
         .list (design_data.reflection_thinking_points.map convertPointRow))]

/-- Outcome of one HTTP attempt of the generation client, abstracting
the network layer of `aliyun_client.py`: a `200` response with its
extracted text, a well-formed non-`200` provider response with its
status code and resolved message, `requests.exceptions.Timeout`,
another `requests.exceptions.RequestException`, or any other exception
(the carried string is `str(e)`). -/
inductive AttemptOutcome where
  | ok (text : String)
  | httpError (status : Nat) (msg : String)
  | timeout (msg : String)
  | requestError (msg : String)
  | otherExc (msg : String)

/-- Result dict returned by the client calls, keyed by the shape of the
dict the source builds in each branch. -/
inductive CallResult where
  | success (text : String)
  | providerError (status : Nat) (msg : String)
  | timeoutError (msg : String)
  | requestFailure (msg : String)
  | unknownError (msg : String)
  | maxRetriesExceeded (msg : String)
deriving DecidableEq

/-- The retry loop of `AliyunClient.call_model` (`aliyun_client.py`
lines 62-174): `attempt` is the loop index, the fuel is the number of
loop iterations left (`range(max_retries + 1)`).  A `200` response, a
well-formed error response, and an unexpected exception all return
immediately; timeout and request errors retry unless this is the last
attempt.  Second component: number of attempts performed. -/
def call_model_go (env : Nat → AttemptOutcome) (max_retries : Nat) :
    Nat → Nat → CallResult × Nat
  | attempt, 0 =>
    (.maxRetriesExceeded ("API调用失败，已重试 " ++ toString (max_retries + 1) ++ " 次"),
     attempt)
  | attempt, remaining + 1 =>
    match env attempt with
    | .ok text => (.success text, attempt + 1)
    | .httpError s m => (.providerError s m, attempt + 1)
    | .otherExc m => (.unknownError ("未知错误: " ++ m), attempt + 1)
    | .timeout _ =>
      if attempt == max_retries then
        (.timeoutError "API调用超时，请稍后重试。建议检查网络连接或文件大小。", attempt + 1)
      else call_model_go env max_retries (attempt + 1) remaining
    | .requestError m =>
      if attempt == max_retries then
        (.requestFailure ("网络请求失败: " ++ m), attempt + 1)
      else call_model_go env max_retries (attempt + 1) remaining

/-- Embeds `AliyunClient.call_model` with its default `max_retries=2`
kept explicit. -/
def call_model (env : Nat → AttemptOutcome) (max_retries : Nat) : CallResult × Nat :=
  call_model_go env max_retries 0 (max_retries + 1)

/-- Embeds `AliyunClient.chat_with_qwen_long_and_files` (lines
436-607): one single attempt, no loop; a non-`200` response is surfaced
with its status and message, and every exception — timeouts included —
is caught by the blanket `except Exception` and returned as
`unknown_error` with `str(e)`. -/
def chat_with_qwen_long_and_files (env : Nat → AttemptOutcome) : CallResult × Nat :=
  match env 0 with
  | .ok text => (.success text, 1)
  | .httpError s m => (.providerError s m, 1)
  | .timeout m => (.unknownError m, 1)
  | .requestError m => (.unknownError m, 1)
  | .otherExc m => (.unknownError m, 1)

/-- Outcome of one fallible step of the `upload` handler. -/
inductive StepResult where
  | ok
  | fail
  | raise
deriving DecidableEq

/-- Environment of one `upload` request (`app.py` lines 130-286):
whether a file was supplied, whether saving succeeded, and the outcomes
of the user-file upload, template-file upload, and AI call. -/
structure UploadEnv where
  hasFile : Bool
  saveOk : Bool
  userUpload : StepResult
  templateUpload : StepResult
  aiCall : StepResult

/-- The successive values the `upload` handler writes to
`uploaded_files[file_id]['status']` (`app.py` lines 183, 196, 212, 236,
261, 272), in order.  Before a successful save no status is stored. -/
def upload_status_trace (e : UploadEnv) : List String :=
  if !e.hasFile then []
  else if !e.saveOk then []
  else
    "processing" ::
      (match e.userUpload with
       | .fail => ["failed"]
       | .raise => ["failed"]
       | .ok =>
         match e.templateUpload with
         | .fail => ["failed"]
         | .raise => ["failed"]
         | .ok =>
           match e.aiCall with
           | .ok => ["completed"]
           | .fail => ["failed"]
           | .raise => ["failed"])

/-- The `status` field returned by `GET /status/<task_id>` for a task
whose stored status is `stored` (`app.py` lines 629-651; absent status
defaults to `processing`, and every branch echoes the stored value). -/
def get_task_status_response (stored : Option String) : String :=
  let status := stored.getD "processing"
  if status == "processing" then "processing"
  else if status == "completed" then "completed"
  else status

/-- The pipeline states enumerated by the specification (section 3 data
model / section 6 status endpoint). -/
def specPipelineStates : List String :=
  ["received", "extracting", "generating", "validating", "rendering",
   "completed", "failed"]

/-- The status values the implementation actually stores. -/
def implStatusValues : List String :=
  ["processing", "completed", "failed"]

/-- Well-shaped activity entry used by concrete instances. -/
def mkActivityEntry (nm ta sa ai : String) : PyVal :=
  .dict [("name", .str nm), ("teacher_activity", .str ta),
         ("student_activity", .str sa), ("activity_intent", .str ai)]

/-- Candidate list of `n` well-shaped activities with pairwise distinct
names and intents. -/
def sampleActivities (n : Nat) : List PyVal :=
  (List.range n).map (fun i =>
    mkActivityEntry ("活动" ++ toString (i + 1)) "教师活动" "学生活动"
      ("意图" ++ toString (i + 1)))

/-- One well-shaped thinking point. -/
def samplePoints : List PyVal :=
  [.dict [("point_type", .str "认知冲突"), ("description", .str "说明")]]

/-- The four-phase lesson structure of the claims. -/
def fourPhaseStructure : String := "导入→新知探究→巩固练习→总结"

/-- Concrete candidate record: all required fields present, `nActs`
well-shaped activities, one thinking point. -/
def mkSampleData (lesson_name structure_text : String) (nActs : Nat) : PyDict :=
  [("lesson_name", .str lesson_name), ("grade_level", .str "初中一年级"),
   ("subject", .str "语文"), ("textbook_version", .str "人教版"),
   ("lesson_period", .str "第1课时"), ("teacher_school", .str "某学校"),
   ("teacher_name", .str "某教师"), ("summary", .str "摘要内容"),
   ("content_analysis", .str "内容分析"), ("learner_analysis", .str "学习者分析"),
   ("learning_objectives", .str "1. 目标一"), ("lesson_structure", .str structure_text),
   ("learning_activities", .list (sampleActivities nActs)),
   ("blackboard_design", .str "板书设计"), ("homework_extension", .str "作业拓展"),
   ("materials_design", .str "素材设计"),
   ("reflection_thinking_points", .list samplePoints)]

/-- Removal of one key (to build a candidate lacking exactly one
field). -/
def dropKey (d : PyDict) (k : String) : PyDict :=
  d.filter (fun kv => kv.1 != k)

/-- Candidate in which every required field is present but every scalar
is the empty string and both lists are empty. -/
def allEmptyRecordData : PyDict :=
  [("lesson_name", .str ""), ("grade_level", .str ""), ("subject", .str ""),
   ("textbook_version", .str ""), ("lesson_period", .str ""),
   ("teacher_school", .str ""), ("teacher_name", .str ""), ("summary", .str ""),
   ("content_analysis", .str ""), ("learner_analysis", .str ""),
   ("learning_objectives", .str ""), ("lesson_structure", .str ""),
   ("learning_activities", .list []), ("blackboard_design", .str ""),
   ("homework_extension", .str ""), ("materials_design", .str ""),
   ("reflection_thinking_points", .list [])]

/-- Is an attempt outcome a timeout or transient network error (the
retryable exceptions of `call_model`)? -/
def isTransientOutcome : AttemptOutcome → Bool
  | .timeout _ => true
  | .requestError _ => true
  | _ => false

/-- Environment whose first attempt times out and whose later attempts
succeed. -/
def c5Env : Nat → AttemptOutcome :=
  fun n => if n == 0 then .timeout "Request timed out" else .ok "生成结果"

/-- Upload environment in which every step succeeds. -/
def c7EnvAllOk : UploadEnv :=
  ⟨true, true, .ok, .ok, .ok⟩

/-- Objective text of one parsed element, as the spec side of the
numbered-list rendering (`obj['objective']` for a dict carrying that
key, otherwise `str(obj)`). -/
def objectiveTextSpec (obj : PyVal) : String :=
  match obj with
  | .dict d => if pyHasKey d "objective" then pyStr (pyGetD d "objective" .pynone) else pyStr obj
  | _ => pyStr obj

/-- Record with two activities carrying distinct intents. -/
def c8Record : TeachingDesignData :=
  ⟨.str "课名", .str "初中一年级", .str "语文", .str "人教版", .str "第1课时",
   .str "某学校", .str "某教师", .str "摘要", .str "内容分析", .str "学情分析",
   .str "1. 目标一", .str "导入→总结",
   [⟨.str "环节一", .str "教师A", .str "学生A", .str "意图甲"⟩,
    ⟨.str "环节二", .str "教师B", .str "学生B", .str "意图乙"⟩],
   .str "板书", .str "作业", .str "素材",
   [⟨.str "认知冲突", .str "说明"⟩]⟩

/-- Input dict carrying only a well-shaped activities list (all other
fields absent). -/
def c9Data : PyDict :=
  [("learning_activities", .list [mkActivityEntry "环节一" "教" "学" "意图"])]

/-- Round-trip input: exactly the schema keys, deliberately in an order
different from the dataclass declaration order, with the activity and
thinking-point entry keys also permuted. -/
def c10Data : PyDict :=
  [("reflection_thinking_points",
    .list [.dict [("description", .str "说明文字"), ("point_type", .str "认知冲突")]]),
   ("materials_design", .str "素材设计"), ("homework_extension", .str "作业拓展"),
   ("blackboard_design", .str "板书设计"),
   ("learning_activities",
    .list [.dict [("activity_intent", .str "意图甲"), ("name", .str "环节一"),
                  ("teacher_activity", .str "教师A"), ("student_activity", .str "学生A")]]),
   ("lesson_structure", .str "导入→总结"), ("learning_objectives", .str "1. 目标一"),
   ("learner_analysis", .str "学情"), ("content_analysis", .str "内容"),
   ("summary", .str "摘要"), ("teacher_name", .str "某教师"),
   ("teacher_school", .str "某学校"), ("lesson_period", .str "第1课时"),
   ("textbook_version", .str "人教版"), ("subject", .str "语文"),
   ("grade_level", .str "初中一年级"), ("lesson_name", .str "课名")]

/-! Helper lemmas shared by several claims. -/

theorem firstChar_append_of {s : String} {c : Char} (h : firstChar s = some c) (t : String) :
    firstChar (s ++ t) = some c := by
  unfold firstChar at h ⊢
  rw [String.data_append]
  cases hd : s.data with
  | nil => rw [hd] at h; exact absurd h (by simp)
  | cons a as => rw [hd] at h; exact h

theorem missingFieldMsg_inj : Function.Injective missingFieldMsg := by
  intro a b h
  have h2 : ("缺少必需字段: " ++ a).data = ("缺少必需字段: " ++ b).data :=
    congrArg String.data h
  rw [String.data_append, String.data_append] at h2
  exact String.ext (List.append_cancel_left h2)

theorem firstChar_missingFieldMsg (f : String) :
    firstChar (missingFieldMsg f) = some '缺' :=
  firstChar_append_of (rfl : firstChar "缺少必需字段: " = some '缺') f

theorem count_eq_zero_of_firstChar_ne {l : List String} {a : String}
    (h : ∀ e ∈ l, firstChar e ≠ firstChar a) : l.count a = 0 := by
  rw [List.count_eq_zero]
  intro hmem
  exact h a hmem rfl

theorem mem_missingFieldErrors_firstChar {data : PyDict} {e : String}
    (h : e ∈ missingFieldErrors data) : firstChar e = some '缺' := by
  unfold missingFieldErrors at h
  obtain ⟨f, _, rfl⟩ := List.mem_map.mp h
  exact firstChar_missingFieldMsg f

theorem mem_activityEntryErrors_firstChar {i : Nat} {v : PyVal} {e : String}
    (h : e ∈ activityEntryErrors i v) : firstChar e = some '学' := by
  have base : firstChar "学习活动 " = some '学' := rfl
  cases v with
  | dict a =>
    unfold activityEntryErrors at h
    obtain ⟨f, _, rfl⟩ := List.mem_map.mp h
    exact firstChar_append_of (firstChar_append_of (firstChar_append_of base _) _) _
  | str s =>
    simp only [activityEntryErrors, List.mem_singleton] at h
    subst h; exact firstChar_append_of (firstChar_append_of base _) _
  | int n =>
    simp only [activityEntryErrors, List.mem_singleton] at h
    subst h; exact firstChar_append_of (firstChar_append_of base _) _
  | float l =>
    simp only [activityEntryErrors, List.mem_singleton] at h
    subst h; exact firstChar_append_of (firstChar_append_of base _) _
  | bool b =>
    simp only [activityEntryErrors, List.mem_singleton] at h
    subst h; exact firstChar_append_of (firstChar_append_of base _) _
  | pynone =>
    simp only [activityEntryErrors, List.mem_singleton] at h
    subst h; exact firstChar_append_of (firstChar_append_of base _) _
  | list xs =>
    simp only [activityEntryErrors, List.mem_singleton] at h
    subst h; exact firstChar_append_of (firstChar_append_of base _) _

theorem mem_activityListErrors_firstChar {data : PyDict} {e : String}
    (h : e ∈ activityListErrors data) :
    firstChar e = some 'l' ∨ firstChar e = some '学' := by
  unfold activityListErrors at h
  cases hv : pyGet data "learning_activities" with
  | none => rw [hv] at h; simp at h
  | some v =>
    rw [hv] at h
    cases v with
    | list acts =>
      obtain ⟨l, hl, hel⟩ := List.mem_flatten.mp h
      obtain ⟨ia, _, rfl⟩ := List.mem_map.mp hl
      exact Or.inr (mem_activityEntryErrors_firstChar hel)
    | str s => simp at h; subst h; exact Or.inl rfl
    | int n => simp at h; subst h; exact Or.inl rfl
    | float l => simp at h; subst h; exact Or.inl rfl
    | bool b => simp at h; subst h; exact Or.inl rfl
    | pynone => simp at h; subst h; exact Or.inl rfl
    | dict d => simp at h; subst h; exact Or.inl rfl

theorem mem_pointEntryErrors_firstChar {i : Nat} {v : PyVal} {e : String}
    (h : e ∈ pointEntryErrors i v) : firstChar e = some '思' := by
  have base : firstChar "思维训练点 " = some '思' := rfl
  cases v with
  | dict p =>
    unfold pointEntryErrors at h
    obtain ⟨f, _, rfl⟩ := List.mem_map.mp h
    exact firstChar_append_of (firstChar_append_of (firstChar_append_of base _) _) _
  | str s =>
    simp only [pointEntryErrors, List.mem_singleton] at h
    subst h; exact firstChar_append_of (firstChar_append_of base _) _
  | int n =>
    simp only [pointEntryErrors, List.mem_singleton] at h
    subst h; exact firstChar_append_of (firstChar_append_of base _) _
  | float l =>
    simp only [pointEntryErrors, List.mem_singleton] at h
    subst h; exact firstChar_append_of (firstChar_append_of base _) _
  | bool b =>
    simp only [pointEntryErrors, List.mem_singleton] at h
    subst h; exact firstChar_append_of (firstChar_append_of base _) _
  | pynone =>
    simp only [pointEntryErrors, List.mem_singleton] at h
    subst h; exact firstChar_append_of (firstChar_append_of base _) _
  | list xs =>
    simp only [pointEntryErrors, List.mem_singleton] at h
    subst h; exact firstChar_append_of (firstChar_append_of base _) _

theorem mem_pointListErrors_firstChar {data : PyDict} {e : String}
    (h : e ∈ pointListErrors data) :
    firstChar e = some 'r' ∨ firstChar e = some '思' := by
  unfold pointListErrors at h
  cases hv : pyGet data "reflection_thinking_points" with
  | none => rw [hv] at h; simp at h
  | some v =>
    rw [hv] at h
    cases v with
    | list pts =>
      obtain ⟨l, hl, hel⟩ := List.mem_flatten.mp h
      obtain ⟨ip, _, rfl⟩ := List.mem_map.mp hl
      exact Or.inr (mem_pointEntryErrors_firstChar hel)
    | str s => simp at h; subst h; exact Or.inl rfl
    | int n => simp at h; subst h; exact Or.inl rfl
    | float l => simp at h; subst h; exact Or.inl rfl
    | bool b => simp at h; subst h; exact Or.inl rfl
    | pynone => simp at h; subst h; exact Or.inl rfl
    | dict d => simp at h; subst h; exact Or.inl rfl

theorem mem_structureCountErrors_firstChar {data : PyDict} {e : String}
    (h : e ∈ structureCountErrors data) :
    firstChar e = some '课' ∨ firstChar e = some '学' := by
  have base1 : firstChar "课例结构环节数量(" = some '课' := rfl
  have base2 : firstChar "学习活动数量(" = some '学' := rfl
  unfold structureCountErrors at h
  cases h1 : pyGet data "lesson_structure" with
  | none => rw [h1] at h; simp at h
  | some v1 =>
    rw [h1] at h
    cases h2 : pyGet data "learning_activities" with
    | none => rw [h2] at h; cases v1 <;> simp at h
    | some v2 =>
      rw [h2] at h
      cases v1 <;> cases v2 <;> (try simp at h)
      case str.list s acts =>
        split_ifs at h with c1 c2 c3 c4 <;> simp at h
        · obtain ⟨-, rfl⟩ := h
          exact Or.inl (firstChar_append_of (firstChar_append_of base1 _) _)
        · obtain ⟨-, rfl⟩ := h
          exact Or.inr (firstChar_append_of (firstChar_append_of base2 _) _)
        · obtain ⟨-, rfl⟩ := h
          exact Or.inr
            (firstChar_append_of (firstChar_append_of
              (firstChar_append_of (firstChar_append_of base2 _) _) _) _)
        · obtain ⟨-, rfl⟩ := h
          exact Or.inr
            (firstChar_append_of (firstChar_append_of
              (firstChar_append_of (firstChar_append_of base2 _) _) _) _)

theorem except_bind_ok {α β : Type} {m : Except String α} {k : α → Except String β} {v : β}
    (h : m >>= k = .ok v) : ∃ u, m = .ok u ∧ k u = .ok v := by
  rcases m with e | u
  · simp [Bind.bind, Except.bind] at h
  · exact ⟨u, rfl, by simpa [Bind.bind, Except.bind] using h⟩

theorem except_pure_ok {α : Type} {a b : α} (h : (pure a : Except String α) = .ok b) :
    a = b := by
  simpa [pure, Except.pure] using h

theorem coverageObjectiveErrors_firstChar {data : PyDict} {es : List String}
    (h : coverageObjectiveErrors data = .ok es) :
    ∀ e ∈ es, firstChar e = some '学' := by
  unfold coverageObjectiveErrors at h
  dsimp only at h
  split at h
  · obtain ⟨s, -, h2⟩ := except_bind_ok h
    split at h2 <;> (rw [← except_pure_ok h2]; intro e he; simp at he)
    subst he; rfl
  · rw [← except_pure_ok h]; intro e he; simp at he

theorem coveragePhaseErrors_firstChar {data : PyDict} {es : List String}
    (h : coveragePhaseErrors data = .ok es) :
    ∀ e ∈ es, firstChar e = some '课' := by
  unfold coveragePhaseErrors at h
  dsimp only at h
  split at h
  · obtain ⟨s, -, h2⟩ := except_bind_ok h
    split at h2 <;> (rw [← except_pure_ok h2]; intro e he; simp at he)
    subst he
    exact firstChar_append_of (rfl : firstChar "课例结构缺少基本环节: " = some '课') _
  · rw [← except_pure_ok h]; intro e he; simp at he

theorem coverageActivityCountErrors_firstChar {data : PyDict} {es : List String}
    (h : coverageActivityCountErrors data = .ok es) :
    ∀ e ∈ es, firstChar e = some '学' := by
  unfold coverageActivityCountErrors at h
  obtain ⟨n, -, h2⟩ := except_bind_ok h
  split at h2 <;> (rw [← except_pure_ok h2]; intro e he; simp at he)
  subst he; rfl

theorem coverageDuplicateIntentErrors_firstChar {data : PyDict} {es : List String}
    (h : coverageDuplicateIntentErrors data = .ok es) :
    ∀ e ∈ es, firstChar e = some '发' := by
  unfold coverageDuplicateIntentErrors at h
  obtain ⟨items, -, h2⟩ := except_bind_ok h
  obtain ⟨d, -, h3⟩ := except_bind_ok h2
  split at h3 <;> (rw [← except_pure_ok h3]; intro e he; simp at he)
  subst he; rfl

theorem alignMethodErrors_firstChar {data : PyDict} {oc : String} {es : List String}
    (h : alignMethodErrors data oc = .ok es) :
    ∀ e ∈ es, firstChar e = some '文' := by
  unfold alignMethodErrors at h
  dsimp only at h
  split at h
  · obtain ⟨items, -, h2⟩ := except_bind_ok h
    obtain ⟨ats, -, h3⟩ := except_bind_ok h2
    split at h3 <;> (rw [← except_pure_ok h3]; intro e he; simp at he)
    subst he; rfl
  · rw [← except_pure_ok h]; intro e he; simp at he

theorem alignRequirementErrors_firstChar {data : PyDict} {oc : String} {es : List String}
    (h : alignRequirementErrors data oc = .ok es) :
    ∀ e ∈ es, firstChar e = some '教' := by
  unfold alignRequirementErrors at h
  dsimp only at h
  split at h
  · obtain ⟨lo, -, h2⟩ := except_bind_ok h
    obtain ⟨ls, -, h3⟩ := except_bind_ok h2
    split at h3 <;> (rw [← except_pure_ok h3]; intro e he; simp at he)
    subst he; rfl
  · rw [← except_pure_ok h]; intro e he; simp at he

theorem alignKnowledgeErrors_firstChar {data : PyDict} {oc : String} {es : List String}
    (h : alignKnowledgeErrors data oc = .ok es) :
    ∀ e ∈ es, firstChar e = some '文' := by
  unfold alignKnowledgeErrors at h
  dsimp only at h
  split at h
  · obtain ⟨n, -, h2⟩ := except_bind_ok h
    split at h2 <;> (rw [← except_pure_ok h2]; intro e he; simp at he)
    subst he
    exact firstChar_append_of (firstChar_append_of (firstChar_append_of
      (rfl : firstChar "文档中包含" = some '文') _) _) _
  · rw [← except_pure_ok h]; intro e he; simp at he

theorem check_content_alignment_firstChar {data : PyDict} {oc : String} {es : List String}
    (h : check_content_alignment data oc = .ok es) :
    ∀ e ∈ es, firstChar e = some '文' ∨ firstChar e = some '教' := by
  unfold check_content_alignment at h
  obtain ⟨e1, he1, h2⟩ := except_bind_ok h
  obtain ⟨e2, he2, h3⟩ := except_bind_ok h2
  obtain ⟨e3, he3, h4⟩ := except_bind_ok h3
  rw [← except_pure_ok h4]
  intro e he
  rcases List.mem_append.mp he with he' | he3'
  · rcases List.mem_append.mp he' with he1' | he2'
    · exact Or.inl (alignMethodErrors_firstChar he1 e he1')
    · exact Or.inr (alignRequirementErrors_firstChar he2 e he2')
  · exact Or.inl (alignKnowledgeErrors_firstChar he3 e he3')

theorem check_content_coverage_firstChar {data : PyDict} {oc : String} {es : List String}
    (h : check_content_coverage data oc = .ok es) :
    ∀ e ∈ es,
      firstChar e = some '学' ∨ firstChar e = some '课' ∨ firstChar e = some '发' ∨
      firstChar e = some '文' ∨ firstChar e = some '教' := by
  unfold check_content_coverage at h
  obtain ⟨items, -, h1⟩ := except_bind_ok h
  obtain ⟨kw, -, h2⟩ := except_bind_ok h1
  obtain ⟨e1, he1, h3⟩ := except_bind_ok h2
  obtain ⟨e2, he2, h4⟩ := except_bind_ok h3
  obtain ⟨e3, he3, h5⟩ := except_bind_ok h4
  obtain ⟨e4, he4, h6⟩ := except_bind_ok h5
  obtain ⟨al, hal, h7⟩ := except_bind_ok h6
  rw [← except_pure_ok h7]
  intro e he
  rcases List.mem_append.mp he with he' | hal'
  · rcases List.mem_append.mp he' with he'' | he4'
    · rcases List.mem_append.mp he'' with he''' | he3'
      · rcases List.mem_append.mp he''' with he1' | he2'
        · exact Or.inl (coverageObjectiveErrors_firstChar he1 e he1')
        · exact Or.inr (Or.inl (coveragePhaseErrors_firstChar he2 e he2'))
      · exact Or.inl (coverageActivityCountErrors_firstChar he3 e he3')
    · exact Or.inr (Or.inr (Or.inl (coverageDuplicateIntentErrors_firstChar he4 e he4')))
  · rcases check_content_alignment_firstChar hal e hal' with hc | hc
    · exact Or.inr (Or.inr (Or.inr (Or.inl hc)))
    · exact Or.inr (Or.inr (Or.inr (Or.inr hc)))

/-- C1: whenever the candidate's `lesson_structure` is a string parsing
to a non-empty phase list and `learning_activities` is a list, the
validator emits a structure/activity-count error exactly when the
activity count is below the phase count, above the phase count plus 2,
or above 8, or the phase count itself exceeds 8; concretely, the
four-phase structure 导入→新知探究→巩固练习→总结 parses to its four phases, 3
activities produce the shortfall error, 4-6 pass the count check, 7
produces the 明显多于 error, and 9 activities (over the cap of 8) produce
an over-limit error — an error in the returned list, never a silent
truncation. -/
theorem C1_activity_count_validation :
    (∀ (data : PyDict) (s : String) (acts : List PyVal),
      pyGet data "lesson_structure" = some (.str s) →
      pyGet data "learning_activities" = some (.list acts) →
      parseStructureParts s ≠ [] →
      (structureCountErrors data ≠ [] ↔
        (acts.length < (parseStructureParts s).length ∨
         acts.length > (parseStructureParts s).length + 2 ∨
         8 < acts.length ∨ 8 < (parseStructureParts s).length))) ∧
    parseStructureParts fourPhaseStructure = ["导入", "新知探究", "巩固练习", "总结"] ∧
    validate_teaching_design_data (mkSampleData "课名" fourPhaseStructure 3) Option.none =
      .ok (false, ["学习活动数量(3)少于课例结构环节数量(4)，请确保每个结构环节都有对应的学习活动"]) ∧
    validate_teaching_design_data (mkSampleData "课名" fourPhaseStructure 4) Option.none =
      .ok (true, []) ∧
    validate_teaching_design_data (mkSampleData "课名" fourPhaseStructure 5) Option.none =
      .ok (true, []) ∧
    validate_teaching_design_data (mkSampleData "课名" fourPhaseStructure 6) Option.none =
      .ok (true, []) ∧
    validate_teaching_design_data (mkSampleData "课名" fourPhaseStructure 7) Option.none =
      .ok (false, ["学习活动数量(7)明显多于课例结构环节数量(4)，请检查是否有多余的活动"]) ∧
    strContains "学习活动数量(7)明显多于课例结构环节数量(4)，请检查是否有多余的活动" "明显多于" = true ∧
    validate_teaching_design_data (mkSampleData "课名" fourPhaseStructure 9) Option.none =
      .ok (false, ["学习活动数量(9)超过最大限制(8个)，请减少学习活动"]) := by
  refine ⟨?_, by decide, by rfl, by rfl, by rfl, by rfl, by rfl, by decide, by rfl⟩
  intro data s acts hs ha hne
  unfold structureCountErrors
  rw [hs, ha]
  have hpos : 0 < (parseStructureParts s).length := List.length_pos.mpr hne
  dsimp only
  rw [if_pos hpos]
  split_ifs with c1 c2 c3 c4 <;> simp <;> omega

/-- Witness for C1: the count-check equivalence applied to the concrete
four-phase candidate with three activities. -/
theorem C1_activity_count_validation_witness :
    structureCountErrors (mkSampleData "课名" fourPhaseStructure 3) ≠ [] ↔
      ((sampleActivities 3).length < (parseStructureParts fourPhaseStructure).length ∨
       (sampleActivities 3).length > (parseStructureParts fourPhaseStructure).length + 2 ∨
       8 < (sampleActivities 3).length ∨
       8 < (parseStructureParts fourPhaseStructure).length) :=
  C1_activity_count_validation.1 (mkSampleData "课名" fourPhaseStructure 3)
    fourPhaseStructure (sampleActivities 3) rfl rfl (by decide)

theorem validate_ok_decompose {data : PyDict} {orig : Option String} {p : Bool × List String}
    (h : validate_teaching_design_data data orig = .ok p) :
    ∃ cov,
      (∀ e ∈ cov,
        firstChar e = some '学' ∨ firstChar e = some '课' ∨ firstChar e = some '发' ∨
        firstChar e = some '文' ∨ firstChar e = some '教') ∧
      p = ((missingFieldErrors data ++ activityListErrors data ++ pointListErrors data ++
              structureCountErrors data ++ cov).isEmpty,
           missingFieldErrors data ++ activityListErrors data ++ pointListErrors data ++
              structureCountErrors data ++ cov) := by
  unfold validate_teaching_design_data at h
  dsimp only at h
  cases orig with
  | none =>
    dsimp only at h
    obtain ⟨cov, hc, h2⟩ := except_bind_ok h
    have hcov : cov = [] := (except_pure_ok hc).symm
    subst hcov
    refine ⟨[], by simp, ?_⟩
    exact (except_pure_ok h2).symm
  | some oc =>
    dsimp only at h
    by_cases hcond : (oc != "" && pyHasKey data "learning_activities") = true
    · rw [if_pos hcond] at h
      obtain ⟨cov, hc, h2⟩ := except_bind_ok h
      exact ⟨cov, check_content_coverage_firstChar hc, (except_pure_ok h2).symm⟩
    · rw [if_neg hcond] at h
      obtain ⟨cov, hc, h2⟩ := except_bind_ok h
      have hcov : cov = [] := (except_pure_ok hc).symm
      subst hcov
      refine ⟨[], by simp, ?_⟩
      exact (except_pure_ok h2).symm

/-- C2: a candidate lacking exactly one required field F validates to
`isValid = false` with exactly one error naming F (whatever the source
text, whenever the validator returns at all — the missing-field loop
enumerates all absent fields in one pass); and a candidate with every
required field present, well-shaped list fields and phase/activity
counts in band validates to `isValid = true` with an empty error list
when no source text is supplied. -/
theorem C2_missing_field_enumeration :
    (∀ (data : PyDict) (original : Option String) (F : String) (p : Bool × List String),
      F ∈ requiredFields →
      pyGet data F = Option.none →
      (∀ G ∈ requiredFields, G ≠ F → pyGet data G ≠ Option.none) →
      validate_teaching_design_data data original = .ok p →
      p.1 = false ∧ p.2.count (missingFieldMsg F) = 1) ∧
    (∀ (data : PyDict) (acts pts : List PyVal) (s : String),
      (∀ G ∈ requiredFields, pyGet data G ≠ Option.none) →
      pyGet data "learning_activities" = some (.list acts) →
      (∀ a ∈ acts, ∃ ad, a = PyVal.dict ad ∧
        ∀ f ∈ requiredActivityFields, pyHasKey ad f = true) →
      pyGet data "reflection_thinking_points" = some (.list pts) →
      (∀ q ∈ pts, ∃ pd, q = PyVal.dict pd ∧
        ∀ f ∈ requiredPointFields, pyHasKey pd f = true) →
      pyGet data "lesson_structure" = some (.str s) →
      (parseStructureParts s = [] ∨
        ((parseStructureParts s).length ≤ 8 ∧ acts.length ≤ 8 ∧
         (parseStructureParts s).length ≤ acts.length ∧
         acts.length ≤ (parseStructureParts s).length + 2)) →
      validate_teaching_design_data data Option.none = .ok (true, [])) := by
  constructor
  · intro data original F p hF hFnone _hothers hval
    obtain ⟨cov, hcovchars, hp⟩ := validate_ok_decompose hval
    subst hp
    have hcnt_miss : (missingFieldErrors data).count (missingFieldMsg F) = 1 := by
      unfold missingFieldErrors missingFields
      rw [List.count_map_of_injective _ _ missingFieldMsg_inj]
      rw [List.count_filter (by simp [pyHasKey, hFnone])]
      exact List.count_eq_one_of_mem (by decide) hF
    have hzero_act : (activityListErrors data).count (missingFieldMsg F) = 0 :=
      count_eq_zero_of_firstChar_ne (fun e he => by
        rcases mem_activityListErrors_firstChar he with h' | h' <;>
          simp [h', firstChar_missingFieldMsg])
    have hzero_pts : (pointListErrors data).count (missingFieldMsg F) = 0 :=
      count_eq_zero_of_firstChar_ne (fun e he => by
        rcases mem_pointListErrors_firstChar he with h' | h' <;>
          simp [h', firstChar_missingFieldMsg])
    have hzero_st : (structureCountErrors data).count (missingFieldMsg F) = 0 :=
      count_eq_zero_of_firstChar_ne (fun e he => by
        rcases mem_structureCountErrors_firstChar he with h' | h' <;>
          simp [h', firstChar_missingFieldMsg])
    have hzero_cov : cov.count (missingFieldMsg F) = 0 :=
      count_eq_zero_of_firstChar_ne (fun e he => by
        rcases hcovchars e he with h' | h' | h' | h' | h' <;>
          simp [h', firstChar_missingFieldMsg])
    have hcount :
        (missingFieldErrors data ++ activityListErrors data ++ pointListErrors data ++
          structureCountErrors data ++ cov).count (missingFieldMsg F) = 1 := by
      rw [List.count_append, List.count_append, List.count_append, List.count_append]
      rw [hcnt_miss, hzero_act, hzero_pts, hzero_st, hzero_cov]
    refine ⟨?_, hcount⟩
    have hmemF : missingFieldMsg F ∈
        missingFieldErrors data ++ activityListErrors data ++ pointListErrors data ++
          structureCountErrors data ++ cov := by
      rw [← List.count_pos_iff]
      omega
    cases herr : missingFieldErrors data ++ activityListErrors data ++ pointListErrors data ++
        structureCountErrors data ++ cov with
    | nil => rw [herr] at hmemF; simp at hmemF
    | cons x t => simp [herr]
  · intro data acts pts s hall hla hacts hlp hpts hls hband
    have hmiss : missingFieldErrors data = [] := by
      unfold missingFieldErrors missingFields
      rw [List.filter_eq_nil_iff.mpr]
      · rfl
      · intro f hf
        have := hall f hf
        simp [pyHasKey, Option.isSome_iff_ne_none, this]
    have hact : activityListErrors data = [] := by
      unfold activityListErrors
      rw [hla]
      refine List.flatten_eq_nil_iff.mpr ?_
      intro l hl
      obtain ⟨ia, hia, rfl⟩ := List.mem_map.mp hl
      have hmem : ia.2 ∈ acts := by
        have := List.mem_enum hia
        rw [this.2]
        exact List.getElem_mem this.1
      obtain ⟨ad, had, hfields⟩ := hacts ia.2 hmem
      rw [had]
      have hfil : requiredActivityFields.filter (fun f => !pyHasKey ad f) = [] :=
        List.filter_eq_nil_iff.mpr (fun f hf => by simp [hfields f hf])
      simp [activityEntryErrors, hfil]
    have hpt : pointListErrors data = [] := by
      unfold pointListErrors
      rw [hlp]
      refine List.flatten_eq_nil_iff.mpr ?_
      intro l hl
      obtain ⟨ip, hip, rfl⟩ := List.mem_map.mp hl
      have hmem : ip.2 ∈ pts := by
        have := List.mem_enum hip
        rw [this.2]
        exact List.getElem_mem this.1
      obtain ⟨pd, hpd, hfields⟩ := hpts ip.2 hmem
      rw [hpd]
      have hfil : requiredPointFields.filter (fun f => !pyHasKey pd f) = [] :=
        List.filter_eq_nil_iff.mpr (fun f hf => by simp [hfields f hf])
      simp [pointEntryErrors, hfil]
    have hst : structureCountErrors data = [] := by
      unfold structureCountErrors
      rw [hls, hla]
      dsimp only
      rcases hband with hnil | ⟨h8p, h8a, hlow, hhigh⟩
      · rw [if_neg (by simp [hnil])]
      · by_cases hp0 : 0 < (parseStructureParts s).length
        · rw [if_pos hp0]
          rw [if_neg (by omega), if_neg (by omega), if_neg (by omega), if_neg (by omega)]
        · rw [if_neg hp0]
    unfold validate_teaching_design_data
    simp [hmiss, hact, hpt, hst, Bind.bind, Except.bind, pure, Except.pure]

/-- Witness for C2: the candidate obtained by deleting `subject` from a
fully valid record validates to `false` with exactly one error naming
`subject`. -/
theorem C2_missing_field_enumeration_witness :
    ((false, ["缺少必需字段: subject"]) : Bool × List String).1 = false ∧
    ((false, ["缺少必需字段: subject"]) : Bool × List String).2.count
      (missingFieldMsg "subject") = 1 :=
  C2_missing_field_enumeration.1
    (dropKey (mkSampleData "课名" fourPhaseStructure 4) "subject") Option.none "subject"
    (false, ["缺少必需字段: subject"]) (by decide) rfl
    (by
      intro G hG hne hnone
      have hall : requiredFields.all
          (fun G => G == "subject" ||
            pyHasKey (dropKey (mkSampleData "课名" fourPhaseStructure 4) "subject") G) = true := by
        decide
      have hor := List.all_eq_true.mp hall G hG
      simp only [Bool.or_eq_true, beq_iff_eq] at hor
      rcases hor with h' | h'
      · exact hne h'
      · rw [pyHasKey, hnone] at h'
        simp at h')
    rfl

/-- C3 counterexample: with source text supplied and a non-iterable
`learning_activities` value, `validate_teaching_design_data` raises (a
`TypeError` from the unguarded iteration in `_check_content_coverage`)
instead of returning a `(bool, errors)` pair with a type error in the
list. -/
theorem C3_counterexample_nonlist_with_source :
    validate_teaching_design_data [("learning_activities", PyVal.int 0)] (some "x") =
      .error "TypeError: object is not iterable" := by rfl

/-- C3 amended: with no source text the validator always returns a
`(bool, errors)` pair whatever the field types, and a non-list value of
either list field is reported as exactly one top-level type error; but
when source text is supplied, a non-iterable `learning_activities`
value makes the validator raise instead. -/
theorem C3_total_without_source :
    (∀ data : PyDict, ∃ p, validate_teaching_design_data data Option.none = .ok p) ∧
    (∀ (data : PyDict) (v : PyVal) (p : Bool × List String),
      pyGet data "learning_activities" = some v → (∀ xs, v ≠ .list xs) →
      validate_teaching_design_data data Option.none = .ok p →
      p.2.count "learning_activities 必须是列表" = 1) ∧
    (∀ (data : PyDict) (v : PyVal) (p : Bool × List String),
      pyGet data "reflection_thinking_points" = some v → (∀ xs, v ≠ .list xs) →
      validate_teaching_design_data data Option.none = .ok p →
      p.2.count "reflection_thinking_points 必须是列表" = 1) ∧
    validate_teaching_design_data [("learning_activities", PyVal.int 0)] (some "x") =
      .error "TypeError: object is not iterable" := by
  refine ⟨fun data => ⟨_, rfl⟩, ?_, ?_, rfl⟩
  · intro data v p hv hnl hval
    obtain ⟨cov, hcovchars, hp⟩ := validate_ok_decompose hval
    subst hp
    have hmsg : firstChar "learning_activities 必须是列表" = some 'l' := rfl
    have h1 : (missingFieldErrors data).count "learning_activities 必须是列表" = 0 :=
      count_eq_zero_of_firstChar_ne (fun e he => by
        simp [mem_missingFieldErrors_firstChar he, hmsg])
    have h2 : (activityListErrors data).count "learning_activities 必须是列表" = 1 := by
      unfold activityListErrors
      rw [hv]
      cases v with
      | list xs => exact absurd rfl (hnl xs)
      | str s => rfl
      | int n => rfl
      | float l => rfl
      | bool b => rfl
      | pynone => rfl
      | dict d => rfl
    have h3 : (pointListErrors data).count "learning_activities 必须是列表" = 0 :=
      count_eq_zero_of_firstChar_ne (fun e he => by
        rcases mem_pointListErrors_firstChar he with h' | h' <;> simp [h', hmsg])
    have h4 : (structureCountErrors data).count "learning_activities 必须是列表" = 0 :=
      count_eq_zero_of_firstChar_ne (fun e he => by
        rcases mem_structureCountErrors_firstChar he with h' | h' <;> simp [h', hmsg])
    have h5 : cov.count "learning_activities 必须是列表" = 0 :=
      count_eq_zero_of_firstChar_ne (fun e he => by
        rcases hcovchars e he with h' | h' | h' | h' | h' <;> simp [h', hmsg])
    show (missingFieldErrors data ++ activityListErrors data ++ pointListErrors data ++
      structureCountErrors data ++ cov).count "learning_activities 必须是列表" = 1
    rw [List.count_append, List.count_append, List.count_append, List.count_append,
      h1, h2, h3, h4, h5]
  · intro data v p hv hnl hval
    obtain ⟨cov, hcovchars, hp⟩ := validate_ok_decompose hval
    subst hp
    have hmsg : firstChar "reflection_thinking_points 必须是列表" = some 'r' := rfl
    have h1 : (missingFieldErrors data).count "reflection_thinking_points 必须是列表" = 0 :=
      count_eq_zero_of_firstChar_ne (fun e he => by
        simp [mem_missingFieldErrors_firstChar he, hmsg])
    have h2 : (activityListErrors data).count "reflection_thinking_points 必须是列表" = 0 :=
      count_eq_zero_of_firstChar_ne (fun e he => by
        rcases mem_activityListErrors_firstChar he with h' | h' <;> simp [h', hmsg])
    have h3 : (pointListErrors data).count "reflection_thinking_points 必须是列表" = 1 := by
      unfold pointListErrors
      rw [hv]
      cases v with
      | list xs => exact absurd rfl (hnl xs)
      | str s => rfl
      | int n => rfl
      | float l => rfl
      | bool b => rfl
      | pynone => rfl
      | dict d => rfl
    have h4 : (structureCountErrors data).count "reflection_thinking_points 必须是列表" = 0 :=
      count_eq_zero_of_firstChar_ne (fun e he => by
        rcases mem_structureCountErrors_firstChar he with h' | h' <;> simp [h', hmsg])
    have h5 : cov.count "reflection_thinking_points 必须是列表" = 0 :=
      count_eq_zero_of_firstChar_ne (fun e he => by
        rcases hcovchars e he with h' | h' | h' | h' | h' <;> simp [h', hmsg])
    show (missingFieldErrors data ++ activityListErrors data ++ pointListErrors data ++
      structureCountErrors data ++ cov).count "reflection_thinking_points 必须是列表" = 1
    rw [List.count_append, List.count_append, List.count_append, List.count_append,
      h1, h2, h3, h4, h5]

/-- Witness for C3: the type-error count applied to a concrete record
whose `learning_activities` value is the integer 0. -/
theorem C3_total_without_source_witness :
    ((false, ["learning_activities 必须是列表"]) : Bool × List String).2.count
      "learning_activities 必须是列表" = 1 :=
  C3_total_without_source.2.1
    (dropKey (mkSampleData "课名" fourPhaseStructure 0) "learning_activities" ++
      [("learning_activities", PyVal.int 0)])
    (PyVal.int 0) (false, ["learning_activities 必须是列表"]) rfl
    (fun _ h => PyVal.noConfusion h) rfl

/-- C4 counterexample: a candidate whose `lesson_name` is present but
the empty string validates with `isValid = true` and no errors — the
validator never rejects present-but-empty scalar fields. -/
theorem C4_counterexample_empty_scalar_passes :
    pyGet (mkSampleData "" fourPhaseStructure 4) "lesson_name" = some (.str "") ∧
    validate_teaching_design_data (mkSampleData "" fourPhaseStructure 4) Option.none =
      .ok (true, []) :=
  ⟨rfl, rfl⟩

/-- C4 amended: the required-field check tests presence only — the
missing-field list is empty exactly when every required field is
present, every absent field is enumerated (one pass, not fail-fast),
and a record whose present scalars are all empty strings validates
successfully. -/
theorem C4_presence_only_validation :
    (∀ data : PyDict,
      missingFieldErrors data = [] ↔ ∀ f ∈ requiredFields, pyHasKey data f = true) ∧
    (∀ (data : PyDict) (f : String), f ∈ requiredFields → pyGet data f = Option.none →
      missingFieldMsg f ∈ missingFieldErrors data) ∧
    validate_teaching_design_data allEmptyRecordData Option.none = .ok (true, []) := by
  refine ⟨?_, ?_, rfl⟩
  · intro data
    unfold missingFieldErrors missingFields
    rw [List.map_eq_nil_iff, List.filter_eq_nil_iff]
    constructor
    · intro h f hf
      have := h f hf
      simpa using this
    · intro h f hf
      simp [h f hf]
  · intro data f hf hnone
    refine List.mem_map.mpr ⟨f, ?_, rfl⟩
    unfold missingFields
    refine List.mem_filter.mpr ⟨hf, ?_⟩
    simp [pyHasKey, hnone]

/-- Witness for C4: the enumeration conjunct applied to the concrete
candidate lacking `subject`. -/
theorem C4_presence_only_validation_witness :
    missingFieldMsg "subject" ∈
      missingFieldErrors (dropKey (mkSampleData "课名" fourPhaseStructure 4) "subject") :=
  C4_presence_only_validation.2.1
    (dropKey (mkSampleData "课名" fourPhaseStructure 4) "subject") "subject" (by decide) rfl

/-- C5 counterexample: an environment whose first attempt times out and
whose second attempt would succeed.  The text-mode `call_model` retries
and succeeds on attempt 2, but `chat_with_qwen_long_and_files` (the
file-handle-pair mode) performs no retry: the timeout is swallowed by
its blanket `except Exception` and returned at once as `unknown_error`. -/
theorem C5_counterexample_no_retry_in_file_mode :
    call_model c5Env 2 = (.success "生成结果", 2) ∧
    chat_with_qwen_long_and_files c5Env = (.unknownError "Request timed out", 1) :=
  ⟨rfl, rfl⟩

/-- C5 amended: `call_model` (text mode) retries up to 2 additional
times on timeout or transient network error and surfaces a well-formed
provider error response immediately with its status and message; the
file-handle-pair mode `chat_with_qwen_long_and_files` performs exactly
one attempt and never retries — a provider error is surfaced with
status and message, while a timeout is returned immediately as an
`unknown_error`. -/
theorem C5_retry_policy :
    (∀ (env : Nat → AttemptOutcome) (k : Nat) (text : String),
      k ≤ 2 → (∀ j < k, isTransientOutcome (env j) = true) → env k = .ok text →
      call_model env 2 = (.success text, k + 1)) ∧
    (∀ (env : Nat → AttemptOutcome) (k s : Nat) (m : String),
      k ≤ 2 → (∀ j < k, isTransientOutcome (env j) = true) → env k = .httpError s m →
      call_model env 2 = (.providerError s m, k + 1)) ∧
    (∀ env : Nat → AttemptOutcome,
      (∀ j, j ≤ 2 → isTransientOutcome (env j) = true) →
      (call_model env 2).2 = 3) ∧
    (∀ env : Nat → AttemptOutcome, (chat_with_qwen_long_and_files env).2 = 1) ∧
    (∀ (env : Nat → AttemptOutcome) (s : Nat) (m : String),
      env 0 = .httpError s m →
      chat_with_qwen_long_and_files env = (.providerError s m, 1)) ∧
    (∀ (env : Nat → AttemptOutcome) (m : String),
      env 0 = .timeout m →
      chat_with_qwen_long_and_files env = (.unknownError m, 1)) := by
  refine ⟨?_, ?_, ?_, ?_, ?_, ?_⟩
  · intro env k text hk htrans henvk
    interval_cases k
    · simp [call_model, call_model_go, henvk]
    · have h0 := htrans 0 (by omega)
      cases hc0 : env 0 <;> rw [hc0] at h0 <;> simp [isTransientOutcome] at h0 <;>
        simp [call_model, call_model_go, hc0, henvk]
    · have h0 := htrans 0 (by omega)
      have h1 := htrans 1 (by omega)
      cases hc0 : env 0 <;> rw [hc0] at h0 <;> simp [isTransientOutcome] at h0 <;>
        cases hc1 : env 1 <;> rw [hc1] at h1 <;> simp [isTransientOutcome] at h1 <;>
          simp [call_model, call_model_go, hc0, hc1, henvk]
  · intro env k s m hk htrans henvk
    interval_cases k
    · simp [call_model, call_model_go, henvk]
    · have h0 := htrans 0 (by omega)
      cases hc0 : env 0 <;> rw [hc0] at h0 <;> simp [isTransientOutcome] at h0 <;>
        simp [call_model, call_model_go, hc0, henvk]
    · have h0 := htrans 0 (by omega)
      have h1 := htrans 1 (by omega)
      cases hc0 : env 0 <;> rw [hc0] at h0 <;> simp [isTransientOutcome] at h0 <;>
        cases hc1 : env 1 <;> rw [hc1] at h1 <;> simp [isTransientOutcome] at h1 <;>
          simp [call_model, call_model_go, hc0, hc1, henvk]
  · intro env h
    have h0 := h 0 (by omega)
    have h1 := h 1 (by omega)
    have h2 := h 2 (by omega)
    cases hc0 : env 0 <;> rw [hc0] at h0 <;> simp [isTransientOutcome] at h0 <;>
      cases hc1 : env 1 <;> rw [hc1] at h1 <;> simp [isTransientOutcome] at h1 <;>
        cases hc2 : env 2 <;> rw [hc2] at h2 <;> simp [isTransientOutcome] at h2 <;>
          simp [call_model, call_model_go, hc0, hc1, hc2]
  · intro env
    cases h : env 0 <;> simp [chat_with_qwen_long_and_files, h]
  · intro env s m h
    simp [chat_with_qwen_long_and_files, h]
  · intro env m h
    simp [chat_with_qwen_long_and_files, h]

/-- Witness for C5: the retry clause applied to the concrete
timeout-then-success environment. -/
theorem C5_retry_policy_witness :
    call_model c5Env 2 = (.success "生成结果", 1 + 1) :=
  C5_retry_policy.1 c5Env 1 "生成结果" (by omega)
    (fun j hj => by interval_cases j; rfl) rfl

/-- C7 counterexample: the upload handler stores the status
`processing`, which is not among the pipeline states enumerated by the
specification (`received`, `extracting`, `generating`, `validating`,
`rendering`, `completed`, `failed`). -/
theorem C7_counterexample_processing_not_spec_state :
    "processing" ∈ upload_status_trace c7EnvAllOk ∧
    "processing" ∉ specPipelineStates := by
  constructor
  · decide
  · decide

/-- C7 amended: the status stored for a task is only ever `processing`,
`completed` or `failed`; the write sequence is `processing` followed by
at most one terminal value (transitions only move forward from
`processing` to a terminal state, terminal states are never
overwritten); and `GET /status/<task_id>` echoes the stored status,
defaulting to `processing`. -/
theorem C7_status_machine :
    (∀ e : UploadEnv,
      upload_status_trace e = [] ∨
      upload_status_trace e = ["processing", "completed"] ∨
      upload_status_trace e = ["processing", "failed"]) ∧
    (∀ e : UploadEnv, ∀ st ∈ upload_status_trace e, st ∈ implStatusValues) ∧
    (∀ stored : Option String, get_task_status_response stored = stored.getD "processing") := by
  have htr : ∀ e : UploadEnv,
      upload_status_trace e = [] ∨
      upload_status_trace e = ["processing", "completed"] ∨
      upload_status_trace e = ["processing", "failed"] := by
    rintro ⟨hf, so, u, t, a⟩
    cases hf <;> cases so <;> cases u <;> cases t <;> cases a <;>
      first
        | exact Or.inl rfl
        | exact Or.inr (Or.inl rfl)
        | exact Or.inr (Or.inr rfl)
  refine ⟨htr, ?_, ?_⟩
  · intro e st hst
    rcases htr e with h | h | h <;> rw [h] at hst <;> simp at hst <;>
      rcases hst with rfl | rfl <;> decide
  · intro stored
    cases stored with
    | none => rfl
    | some s =>
      unfold get_task_status_response
      dsimp only [Option.getD]
      by_cases h1 : s = "processing"
      · subst h1; rfl
      · by_cases h2 : s = "completed"
        · subst h2; rfl
        · simp [h1, h2]

/-- Witness for C7: `processing`, stored by the all-success upload run,
is one of the implementation's status values. -/
theorem C7_status_machine_witness : "processing" ∈ implStatusValues :=
  C7_status_machine.2.1 c7EnvAllOk "processing" (by decide)

/-- C8: the template data binds the activity block once per activity in
the record's original order, each row carrying that activity's own four
fields — in particular its own intent, never a shared value; for the
concrete two-activity record the two distinct intents appear verbatim
and in order. -/
theorem C8_per_activity_binding :
    (∀ (r : TeachingDesignData) (s : String),
      r.learning_objectives = .str s →
      ∃ td, convert_to_template_data r = .ok td ∧
        pyGet td "learning_activities" =
          some (.list (r.learning_activities.map convertActivityRow)) ∧
        pyGet td "reflection_thinking_points" =
          some (.list (r.reflection_thinking_points.map convertPointRow))) ∧
    (∃ td, convert_to_template_data c8Record = .ok td ∧
      pyGet td "learning_activities" = some (.list
        [.dict [("name", .str "环节一"), ("teacher_activity", .str "教师A"),
                ("student_activity", .str "学生A"), ("activity_intent", .str "意图甲")],
         .dict [("name", .str "环节二"), ("teacher_activity", .str "教师B"),
                ("student_activity", .str "学生B"), ("activity_intent", .str "意图乙")]])) := by
  constructor
  · intro r s hs
    unfold convert_to_template_data formatLearningObjectivesVal
    rw [hs]
    exact ⟨_, rfl, rfl, rfl⟩
  · exact ⟨_, rfl, rfl⟩

/-- Witness for C8: the binding shape applied to the concrete
two-activity record. -/
theorem C8_per_activity_binding_witness :
    ∃ td, convert_to_template_data c8Record = .ok td ∧
      pyGet td "learning_activities" =
        some (.list (c8Record.learning_activities.map convertActivityRow)) ∧
      pyGet td "reflection_thinking_points" =
        some (.list (c8Record.reflection_thinking_points.map convertPointRow)) :=
  C8_per_activity_binding.1 c8Record "1. 目标一" rfl

theorem renderObjectiveItem_eq (i : Nat) (obj : PyVal) :
    renderObjectiveItem i obj = toString i ++ ". " ++ objectiveTextSpec obj := by
  cases obj with
  | dict d =>
    by_cases h : pyHasKey d "objective" = true <;>
      simp [renderObjectiveItem, objectiveTextSpec, h]
  | str s => rfl
  | int n => rfl
  | float l => rfl
  | bool b => rfl
  | pynone => rfl
  | list xs => rfl

theorem renderItems_zipWith (objs : List PyVal) : ∀ i,
    (List.enumFrom i objs).map (fun io => renderObjectiveItem (io.1 + 1) io.2) =
      List.zipWith (fun n obj => toString n ++ ". " ++ objectiveTextSpec obj)
        (List.range' (i + 1) objs.length) objs := by
  induction objs with
  | nil => intro i; rfl
  | cons a t ih =>
    intro i
    rw [List.enumFrom_cons, List.length_cons, List.range'_succ, List.map_cons,
      List.zipWith_cons_cons, renderObjectiveItem_eq, ih (i + 1)]

theorem numberLinesGo_enumFrom (lines : List String) : ∀ i,
    numberLinesGo i lines =
      (List.enumFrom i lines).filterMap (fun il =>
        let l := pyStrip il.2
        if l = "" then Option.none
        else if startsWithNum l = true then some l
        else some (toString (il.1 + 1) ++ ". " ++ l)) := by
  induction lines with
  | nil => intro i; rfl
  | cons a t ih =>
    intro i
    rw [List.enumFrom_cons, List.filterMap_cons]
    by_cases h1 : pyStrip a = ""
    · simp only [numberLinesGo, h1]
      simp [ih (i + 1)]
    · by_cases h2 : startsWithNum (pyStrip a) = true
      · simp only [numberLinesGo, h1, h2]
        simp [h1, h2, ih (i + 1)]
      · simp only [numberLinesGo, h1, h2]
        simp [h1, h2, ih (i + 1)]

/-- C6 counterexample: the line-numbering branch assigns an unnumbered
line the index of the line in the split (plus one), not the next
sequential number of the output — `"a\n\nb"` becomes `"1. a\n3. b"`,
not `"1. a\n2. b"`; and an input parsing as JSON but not as a list
(`"123"`) is returned unchanged rather than renumbered. -/
theorem C6_counterexample_line_numbering :
    format_learning_objectives "a\n\nb" = "1. a\n3. b" ∧
    format_learning_objectives "a\n\nb" ≠ "1. a\n2. b" ∧
    format_learning_objectives "123" = "123" ∧
    format_learning_objectives "123" ≠ "1. 123" := by
  exact ⟨rfl, by decide, rfl, by decide⟩

/-- C6 amended: if the learning-objectives string parses as a JSON
list, it is reformatted into a newline-separated list numbered 1..n (a
dict element contributes its `objective` entry, anything else its
`str()` rendering); if it parses as JSON but not as a list it is
returned unchanged; otherwise the trimmed string is split on newlines
and each non-blank line is kept if it already starts with a numeric
prefix `1.`-`9.`, while an unnumbered line at (zero-based) split index
i is given the prefix `i+1` — the index counts blank and numbered
lines too, so this is not in general the next sequential output
number. -/
theorem C6_objectives_formatting :
    (∀ (s : String) (objs : List PyVal),
      jsonLoads s = some (.list objs) →
      format_learning_objectives s =
        String.intercalate "\n"
          (List.zipWith (fun n obj => toString n ++ ". " ++ objectiveTextSpec obj)
            (List.range' 1 objs.length) objs)) ∧
    (∀ (s : String) (v : PyVal),
      jsonLoads s = some v → (∀ xs, v ≠ .list xs) →
      format_learning_objectives s = s) ∧
    (∀ s : String,
      jsonLoads s = Option.none →
      format_learning_objectives s =
        String.intercalate "\n"
          ((pySplit (pyStrip s) "\n").enum.filterMap (fun il =>
            let l := pyStrip il.2
            if l = "" then Option.none
            else if startsWithNum l = true then some l
            else some (toString (il.1 + 1) ++ ". " ++ l)))) := by
  refine ⟨?_, ?_, ?_⟩
  · intro s objs h
    unfold format_learning_objectives
    rw [h]
    have := renderItems_zipWith objs 0
    simpa using congrArg (String.intercalate "\n") this
  · intro s v h hnl
    unfold format_learning_objectives
    rw [h]
    cases v with
    | list xs => exact absurd rfl (hnl xs)
    | str s2 => rfl
    | int n => rfl
    | float l => rfl
    | bool b => rfl
    | pynone => rfl
    | dict d => rfl
  · intro s h
    unfold format_learning_objectives
    rw [h]
    exact congrArg (String.intercalate "\n") (numberLinesGo_enumFrom _ 0)

/-- Witness for C6: the JSON-list branch applied to a concrete
two-element list. -/
theorem C6_objectives_formatting_witness :
    format_learning_objectives "[\"甲\", \"乙\"]" =
      String.intercalate "\n"
        (List.zipWith (fun n obj => toString n ++ ". " ++ objectiveTextSpec obj)
          (List.range' 1 ([PyVal.str "甲", PyVal.str "乙"] : List PyVal).length)
          [PyVal.str "甲", PyVal.str "乙"]) :=
  C6_objectives_formatting.1 "[\"甲\", \"乙\"]" [PyVal.str "甲", PyVal.str "乙"] rfl

theorem pyGetD_none {data : PyDict} {k : String} {dflt : PyVal}
    (h : pyGet data k = Option.none) : pyGetD data k dflt = dflt := by
  unfold pyGetD
  rw [h]
  rfl

theorem mapM_mkActivityInfo_ok (xs : List PyVal)
    (h : ∀ x ∈ xs, ∃ d, x = PyVal.dict d ∧ hasExactKeys d requiredActivityFields = true) :
    ∃ as, xs.mapM mkActivityInfo = .ok as := by
  induction xs with
  | nil => exact ⟨[], rfl⟩
  | cons a t ih =>
    obtain ⟨d, rfl, hk⟩ := h a (List.mem_cons_self a t)
    obtain ⟨as, has⟩ := ih (fun x hx => h x (List.mem_cons_of_mem _ hx))
    refine ⟨⟨pyGetD d "name" (.str ""), pyGetD d "teacher_activity" (.str ""),
             pyGetD d "student_activity" (.str ""),
             pyGetD d "activity_intent" (.str "")⟩ :: as, ?_⟩
    rw [List.mapM_cons]
    simp only [mkActivityInfo, hk, if_true, Bind.bind, Except.bind, pure, Except.pure]
    rw [has]

theorem mapM_mkThinkingPoint_ok (xs : List PyVal)
    (h : ∀ x ∈ xs, ∃ d, x = PyVal.dict d ∧ hasExactKeys d requiredPointFields = true) :
    ∃ ps, xs.mapM mkThinkingPoint = .ok ps := by
  induction xs with
  | nil => exact ⟨[], rfl⟩
  | cons a t ih =>
    obtain ⟨d, rfl, hk⟩ := h a (List.mem_cons_self a t)
    obtain ⟨ps, hps⟩ := ih (fun x hx => h x (List.mem_cons_of_mem _ hx))
    refine ⟨⟨pyGetD d "point_type" (.str ""), pyGetD d "description" (.str "")⟩ :: ps, ?_⟩
    rw [List.mapM_cons]
    simp only [mkThinkingPoint, hk, if_true, Bind.bind, Except.bind, pure, Except.pure]
    rw [hps]

/-- C9: for every input dict whose list-field entries (when those keys
are present) are lists of maps carrying exactly their expected keys,
`from_dict` succeeds — missing top-level fields never raise — and every
absent scalar field silently defaults to the empty string while every
absent list field defaults to the empty list, making such a record
indistinguishable from one built from genuinely empty data. -/
theorem C9_from_dict_silent_defaults :
    ∀ data : PyDict,
      (∀ v, pyGet data "learning_activities" = some v →
        ∃ xs, v = PyVal.list xs ∧
          ∀ x ∈ xs, ∃ d, x = PyVal.dict d ∧ hasExactKeys d requiredActivityFields = true) →
      (∀ v, pyGet data "reflection_thinking_points" = some v →
        ∃ xs, v = PyVal.list xs ∧
          ∀ x ∈ xs, ∃ d, x = PyVal.dict d ∧ hasExactKeys d requiredPointFields = true) →
      ∃ r, TeachingDesignData.from_dict data = .ok r ∧
        (pyGet data "lesson_name" = Option.none → r.lesson_name = .str "") ∧
        (pyGet data "grade_level" = Option.none → r.grade_level = .str "") ∧
        (pyGet data "subject" = Option.none → r.subject = .str "") ∧
        (pyGet data "textbook_version" = Option.none → r.textbook_version = .str "") ∧
        (pyGet data "lesson_period" = Option.none → r.lesson_period = .str "") ∧
        (pyGet data "teacher_school" = Option.none → r.teacher_school = .str "") ∧
        (pyGet data "teacher_name" = Option.none → r.teacher_name = .str "") ∧
        (pyGet data "summary" = Option.none → r.summary = .str "") ∧
        (pyGet data "content_analysis" = Option.none → r.content_analysis = .str "") ∧
        (pyGet data "learner_analysis" = Option.none → r.learner_analysis = .str "") ∧
        (pyGet data "learning_objectives" = Option.none → r.learning_objectives = .str "") ∧
        (pyGet data "lesson_structure" = Option.none → r.lesson_structure = .str "") ∧
        (pyGet data "blackboard_design" = Option.none → r.blackboard_design = .str "") ∧
        (pyGet data "homework_extension" = Option.none → r.homework_extension = .str "") ∧
        (pyGet data "materials_design" = Option.none → r.materials_design = .str "") ∧
        (pyGet data "learning_activities" = Option.none → r.learning_activities = []) ∧
        (pyGet data "reflection_thinking_points" = Option.none →
          r.reflection_thinking_points = []) := by
  intro data hla hlp
  cases ha : pyGet data "learning_activities" with
  | none =>
    cases hp : pyGet data "reflection_thinking_points" with
    | none =>
      refine ⟨⟨pyGetD data "lesson_name" (.str ""), pyGetD data "grade_level" (.str ""),
        pyGetD data "subject" (.str ""), pyGetD data "textbook_version" (.str ""),
        pyGetD data "lesson_period" (.str ""), pyGetD data "teacher_school" (.str ""),
        pyGetD data "teacher_name" (.str ""), pyGetD data "summary" (.str ""),
        pyGetD data "content_analysis" (.str ""), pyGetD data "learner_analysis" (.str ""),
        pyGetD data "learning_objectives" (.str ""), pyGetD data "lesson_structure" (.str ""),
        [], pyGetD data "blackboard_design" (.str ""),
        pyGetD data "homework_extension" (.str ""), pyGetD data "materials_design" (.str ""),
        []⟩, ?_, fun h => pyGetD_none h, fun h => pyGetD_none h, fun h => pyGetD_none h,
        fun h => pyGetD_none h, fun h => pyGetD_none h, fun h => pyGetD_none h,
        fun h => pyGetD_none h, fun h => pyGetD_none h, fun h => pyGetD_none h,
        fun h => pyGetD_none h, fun h => pyGetD_none h, fun h => pyGetD_none h,
        fun h => pyGetD_none h, fun h => pyGetD_none h, fun h => pyGetD_none h,
        fun _ => rfl, fun _ => rfl⟩
      unfold TeachingDesignData.from_dict
      rw [ha, hp]
      rfl
    | some v =>
      obtain ⟨xs, rfl, hxs⟩ := hlp v hp
      obtain ⟨ps, hps⟩ := mapM_mkThinkingPoint_ok xs hxs
      refine ⟨⟨pyGetD data "lesson_name" (.str ""), pyGetD data "grade_level" (.str ""),
        pyGetD data "subject" (.str ""), pyGetD data "textbook_version" (.str ""),
        pyGetD data "lesson_period" (.str ""), pyGetD data "teacher_school" (.str ""),
        pyGetD data "teacher_name" (.str ""), pyGetD data "summary" (.str ""),
        pyGetD data "content_analysis" (.str ""), pyGetD data "learner_analysis" (.str ""),
        pyGetD data "learning_objectives" (.str ""), pyGetD data "lesson_structure" (.str ""),
        [], pyGetD data "blackboard_design" (.str ""),
        pyGetD data "homework_extension" (.str ""), pyGetD data "materials_design" (.str ""),
        ps⟩, ?_, fun h => pyGetD_none h, fun h => pyGetD_none h, fun h => pyGetD_none h,
        fun h => pyGetD_none h, fun h => pyGetD_none h, fun h => pyGetD_none h,
        fun h => pyGetD_none h, fun h => pyGetD_none h, fun h => pyGetD_none h,
        fun h => pyGetD_none h, fun h => pyGetD_none h, fun h => pyGetD_none h,
        fun h => pyGetD_none h, fun h => pyGetD_none h, fun h => pyGetD_none h,
        fun _ => rfl, fun h => Option.noConfusion h⟩
      unfold TeachingDesignData.from_dict
      rw [ha, hp]
      simp [pyIter, hps, Bind.bind, Except.bind, pure, Except.pure]
      try rw [show List.mapM.loop mkThinkingPoint xs [] = Except.ok ps from hps]
  | some v =>
    obtain ⟨xs, rfl, hxs⟩ := hla v ha
    obtain ⟨as, has⟩ := mapM_mkActivityInfo_ok xs hxs
    cases hp : pyGet data "reflection_thinking_points" with
    | none =>
      refine ⟨⟨pyGetD data "lesson_name" (.str ""), pyGetD data "grade_level" (.str ""),
        pyGetD data "subject" (.str ""), pyGetD data "textbook_version" (.str ""),
        pyGetD data "lesson_period" (.str ""), pyGetD data "teacher_school" (.str ""),
        pyGetD data "teacher_name" (.str ""), pyGetD data "summary" (.str ""),
        pyGetD data "content_analysis" (.str ""), pyGetD data "learner_analysis" (.str ""),
        pyGetD data "learning_objectives" (.str ""), pyGetD data "lesson_structure" (.str ""),
        as, pyGetD data "blackboard_design" (.str ""),
        pyGetD data "homework_extension" (.str ""), pyGetD data "materials_design" (.str ""),
        []⟩, ?_, fun h => pyGetD_none h, fun h => pyGetD_none h, fun h => pyGetD_none h,
        fun h => pyGetD_none h, fun h => pyGetD_none h, fun h => pyGetD_none h,
        fun h => pyGetD_none h, fun h => pyGetD_none h, fun h => pyGetD_none h,
        fun h => pyGetD_none h, fun h => pyGetD_none h, fun h => pyGetD_none h,
        fun h => pyGetD_none h, fun h => pyGetD_none h, fun h => pyGetD_none h,
        fun h => Option.noConfusion h, fun _ => rfl⟩
      unfold TeachingDesignData.from_dict
      rw [ha, hp]
      simp [pyIter, has, Bind.bind, Except.bind, pure, Except.pure]
      try rw [show List.mapM.loop mkActivityInfo xs [] = Except.ok as from has]
    | some w =>
      obtain ⟨ys, rfl, hys⟩ := hlp w hp
      obtain ⟨ps, hps⟩ := mapM_mkThinkingPoint_ok ys hys
      refine ⟨⟨pyGetD data "lesson_name" (.str ""), pyGetD data "grade_level" (.str ""),
        pyGetD data "subject" (.str ""), pyGetD data "textbook_version" (.str ""),
        pyGetD data "lesson_period" (.str ""), pyGetD data "teacher_school" (.str ""),
        pyGetD data "teacher_name" (.str ""), pyGetD data "summary" (.str ""),
        pyGetD data "content_analysis" (.str ""), pyGetD data "learner_analysis" (.str ""),
        pyGetD data "learning_objectives" (.str ""), pyGetD data "lesson_structure" (.str ""),
        as, pyGetD data "blackboard_design" (.str ""),
        pyGetD data "homework_extension" (.str ""), pyGetD data "materials_design" (.str ""),
        ps⟩, ?_, fun h => pyGetD_none h, fun h => pyGetD_none h, fun h => pyGetD_none h,
        fun h => pyGetD_none h, fun h => pyGetD_none h, fun h => pyGetD_none h,
        fun h => pyGetD_none h, fun h => pyGetD_none h, fun h => pyGetD_none h,
        fun h => pyGetD_none h, fun h => pyGetD_none h, fun h => pyGetD_none h,
        fun h => pyGetD_none h, fun h => pyGetD_none h, fun h => pyGetD_none h,
        fun h => Option.noConfusion h, fun h => Option.noConfusion h⟩
      unfold TeachingDesignData.from_dict
      rw [ha, hp]
      simp [pyIter, has, hps, Bind.bind, Except.bind, pure, Except.pure]
      try rw [show List.mapM.loop mkActivityInfo xs [] = Except.ok as from has]
      try rw [show List.mapM.loop mkThinkingPoint ys [] = Except.ok ps from hps]

/-- Witness for C9: the defaulting behaviour applied to a dict carrying
only a well-shaped activities list. -/
theorem C9_from_dict_silent_defaults_witness :
    ∃ r, TeachingDesignData.from_dict c9Data = .ok r ∧
      (pyGet c9Data "lesson_name" = Option.none → r.lesson_name = .str "") ∧
      (pyGet c9Data "grade_level" = Option.none → r.grade_level = .str "") ∧
      (pyGet c9Data "subject" = Option.none → r.subject = .str "") ∧
      (pyGet c9Data "textbook_version" = Option.none → r.textbook_version = .str "") ∧
      (pyGet c9Data "lesson_period" = Option.none → r.lesson_period = .str "") ∧
      (pyGet c9Data "teacher_school" = Option.none → r.teacher_school = .str "") ∧
      (pyGet c9Data "teacher_name" = Option.none → r.teacher_name = .str "") ∧
      (pyGet c9Data "summary" = Option.none → r.summary = .str "") ∧
      (pyGet c9Data "content_analysis" = Option.none → r.content_analysis = .str "") ∧
      (pyGet c9Data "learner_analysis" = Option.none → r.learner_analysis = .str "") ∧
      (pyGet c9Data "learning_objectives" = Option.none → r.learning_objectives = .str "") ∧
      (pyGet c9Data "lesson_structure" = Option.none → r.lesson_structure = .str "") ∧
      (pyGet c9Data "blackboard_design" = Option.none → r.blackboard_design = .str "") ∧
      (pyGet c9Data "homework_extension" = Option.none → r.homework_extension = .str "") ∧
      (pyGet c9Data "materials_design" = Option.none → r.materials_design = .str "") ∧
      (pyGet c9Data "learning_activities" = Option.none → r.learning_activities = []) ∧
      (pyGet c9Data "reflection_thinking_points" = Option.none →
        r.reflection_thinking_points = []) :=
  C9_from_dict_silent_defaults c9Data
    (by
      intro v hv
      rw [show pyGet c9Data "learning_activities" =
        some (PyVal.list [mkActivityEntry "环节一" "教" "学" "意图"]) from rfl] at hv
      cases hv
      refine ⟨_, rfl, ?_⟩
      intro x hx
      simp only [List.mem_singleton] at hx
      subst hx
      exact ⟨_, rfl, by decide⟩)
    (by
      intro v hv
      rw [show pyGet c9Data "reflection_thinking_points" = Option.none from rfl] at hv
      cases hv)

theorem pyGetD_of_pyGet {d : PyDict} {k : String} {w dflt : PyVal}
    (h : pyGet d k = some w) : pyGetD d k dflt = w := by
  unfold pyGetD
  rw [h]
  rfl

theorem pyGet_some_mem {d : PyDict} {k : String} {w : PyVal}
    (h : pyGet d k = some w) : (k, w) ∈ d := by
  unfold pyGet at h
  obtain ⟨kv, hfind, hsnd⟩ := Option.map_eq_some'.mp h
  have hmem := List.mem_of_find?_eq_some hfind
  have hkey := List.find?_some hfind
  have hk : kv.1 = k := by simpa using hkey
  have : kv = (k, w) := by
    cases kv
    simp_all
  rw [← this]
  exact hmem

theorem pyWF_of_lookup {d : PyDict} {k : String} {w : PyVal}
    (h : PyWF (.dict d)) (hl : pyGet d k = some w) : PyWF w := by
  cases h with
  | dict hn hv => exact hv (k, w) (pyGet_some_mem hl)

theorem pyHasKey_of_mem_keys {d : PyDict} {k : String}
    (h : k ∈ d.map Prod.fst) : pyHasKey d k = true := by
  induction d with
  | nil => simp at h
  | cons kv t ih =>
    simp only [List.map_cons, List.mem_cons] at h
    rcases h with rfl | h'
    · simp [pyHasKey, pyGet, List.find?_cons]
    · by_cases hk : (kv.1 == k) = true
      · simp [pyHasKey, pyGet, List.find?_cons, hk]
      · have hrec := ih h'
        simp only [pyHasKey, pyGet] at hrec ⊢
        simpa [List.find?_cons, hk] using hrec

theorem pyGet_mem_of_nodup {d : PyDict} {kv : String × PyVal}
    (hn : (d.map Prod.fst).Nodup) (h : kv ∈ d) : pyGet d kv.1 = some kv.2 := by
  induction d with
  | nil => simp at h
  | cons kv' t ih =>
    simp only [List.map_cons, List.nodup_cons] at hn
    rcases List.mem_cons.mp h with rfl | h'
    · simp [pyGet, List.find?_cons]
    · have hne : kv'.1 ≠ kv.1 := by
        intro heq
        exact hn.1 (heq ▸ List.mem_map_of_mem Prod.fst h')
      have hrec := ih hn.2 h'
      simp only [pyGet] at hrec ⊢
      simpa [List.find?_cons, show (kv'.1 == kv.1) = false by simpa using hne] using hrec

theorem pyEquiv_refl {v : PyVal} (h : PyWF v) : PyEquiv v v := by
  induction h with
  | str s => exact .str s
  | int n => exact .int n
  | float l => exact .float l
  | bool b => exact .bool b
  | pynone => exact .pynone
  | list hmem ih => exact .list (List.forall₂_same.mpr ih)
  | dict hn hv ih =>
    refine .dict rfl ?_ ?_
    · intro kv hkv
      exact pyHasKey_of_mem_keys (List.mem_map_of_mem Prod.fst hkv)
    · intro kv hkv w hw
      rw [pyGet_mem_of_nodup hn hkv] at hw
      injection hw with hw
      subst hw
      exact ih kv hkv

theorem activity_to_dict_equiv {ad : PyDict}
    (hk : hasExactKeys ad requiredActivityFields = true)
    (hwfa : PyWF (.dict ad)) :
    PyEquiv
      (ActivityInfo.to_dict ⟨pyGetD ad "name" (.str ""), pyGetD ad "teacher_activity" (.str ""),
        pyGetD ad "student_activity" (.str ""), pyGetD ad "activity_intent" (.str "")⟩)
      (PyVal.dict ad) := by
  simp only [hasExactKeys, requiredActivityFields, Bool.and_eq_true, List.all_cons,
    List.all_nil, beq_iff_eq] at hk
  obtain ⟨hlen, h1, h2, h3, h4, -⟩ := hk
  refine PyEquiv.dict ?_ ?_ ?_
  · simpa [ActivityInfo.to_dict] using hlen.symm
  · intro kv hkv
    simp only [ActivityInfo.to_dict, List.mem_cons, List.not_mem_nil, or_false] at hkv
    rcases hkv with rfl | rfl | rfl | rfl
    · exact h1
    · exact h2
    · exact h3
    · exact h4
  · intro kv hkv w hw
    simp only [ActivityInfo.to_dict, List.mem_cons, List.not_mem_nil, or_false] at hkv
    rcases hkv with rfl | rfl | rfl | rfl <;>
      (rw [pyGetD_of_pyGet hw]; exact pyEquiv_refl (pyWF_of_lookup hwfa hw))

theorem point_to_dict_equiv {pd : PyDict}
    (hk : hasExactKeys pd requiredPointFields = true)
    (hwfp : PyWF (.dict pd)) :
    PyEquiv
      (ThinkingPoint.to_dict ⟨pyGetD pd "point_type" (.str ""), pyGetD pd "description" (.str "")⟩)
      (PyVal.dict pd) := by
  simp only [hasExactKeys, requiredPointFields, Bool.and_eq_true, List.all_cons,
    List.all_nil, beq_iff_eq] at hk
  obtain ⟨hlen, h1, h2, -⟩ := hk
  refine PyEquiv.dict ?_ ?_ ?_
  · simpa [ThinkingPoint.to_dict] using hlen.symm
  · intro kv hkv
    simp only [ThinkingPoint.to_dict, List.mem_cons, List.not_mem_nil, or_false] at hkv
    rcases hkv with rfl | rfl
    · exact h1
    · exact h2
  · intro kv hkv w hw
    simp only [ThinkingPoint.to_dict, List.mem_cons, List.not_mem_nil, or_false] at hkv
    rcases hkv with rfl | rfl <;>
      (rw [pyGetD_of_pyGet hw]; exact pyEquiv_refl (pyWF_of_lookup hwfp hw))

theorem forall2_activities (xs : List PyVal) :
    ∀ as : List ActivityInfo,
      xs.mapM mkActivityInfo = .ok as →
      (∀ x ∈ xs, PyWF x) →
      (∀ x ∈ xs, ∃ ad, x = PyVal.dict ad ∧ hasExactKeys ad requiredActivityFields = true) →
      List.Forall₂ PyEquiv (as.map ActivityInfo.to_dict) xs := by
  induction xs with
  | nil =>
    intro as hmm _ _
    have : as = [] := by
      rw [List.mapM_nil] at hmm
      simpa [pure, Except.pure] using hmm.symm
    subst this
    exact List.Forall₂.nil
  | cons x t ih =>
    intro as hmm hwf hsh
    obtain ⟨ad, rfl, hk⟩ := hsh x (List.mem_cons_self x t)
    rw [List.mapM_cons] at hmm
    have hmk : mkActivityInfo (PyVal.dict ad) =
        .ok ⟨pyGetD ad "name" (.str ""), pyGetD ad "teacher_activity" (.str ""),
             pyGetD ad "student_activity" (.str ""), pyGetD ad "activity_intent" (.str "")⟩ := by
      simp [mkActivityInfo, hk]
    rw [hmk] at hmm
    simp only [Bind.bind, Except.bind] at hmm
    obtain ⟨ts, hts, hpure⟩ := except_bind_ok (by exact hmm)
    have has : as = _ :: ts := (except_pure_ok hpure).symm
    subst has
    rw [List.map_cons]
    exact List.Forall₂.cons
      (activity_to_dict_equiv hk (hwf _ (List.mem_cons_self _ t)))
      (ih ts hts (fun y hy => hwf y (List.mem_cons_of_mem _ hy))
        (fun y hy => hsh y (List.mem_cons_of_mem _ hy)))

theorem forall2_points (xs : List PyVal) :
    ∀ ps : List ThinkingPoint,
      xs.mapM mkThinkingPoint = .ok ps →
      (∀ x ∈ xs, PyWF x) →
      (∀ x ∈ xs, ∃ pd, x = PyVal.dict pd ∧ hasExactKeys pd requiredPointFields = true) →
      List.Forall₂ PyEquiv (ps.map ThinkingPoint.to_dict) xs := by
  induction xs with
  | nil =>
    intro ps hmm _ _
    have : ps = [] := by
      rw [List.mapM_nil] at hmm
      simpa [pure, Except.pure] using hmm.symm
    subst this
    exact List.Forall₂.nil
  | cons x t ih =>
    intro ps hmm hwf hsh
    obtain ⟨pd, rfl, hk⟩ := hsh x (List.mem_cons_self x t)
    rw [List.mapM_cons] at hmm
    have hmk : mkThinkingPoint (PyVal.dict pd) =
        .ok ⟨pyGetD pd "point_type" (.str ""), pyGetD pd "description" (.str "")⟩ := by
      simp [mkThinkingPoint, hk]
    rw [hmk] at hmm
    simp only [Bind.bind, Except.bind] at hmm
    obtain ⟨ts, hts, hpure⟩ := except_bind_ok (by exact hmm)
    have hps : ps = _ :: ts := (except_pure_ok hpure).symm
    subst hps
    rw [List.map_cons]
    exact List.Forall₂.cons
      (point_to_dict_equiv hk (hwf _ (List.mem_cons_self _ t)))
      (ih ts hts (fun y hy => hwf y (List.mem_cons_of_mem _ hy))
        (fun y hy => hsh y (List.mem_cons_of_mem _ hy)))

/-- C10: round trip — for every dict with exactly the schema's
top-level keys (in any order), string-valued scalar fields, and list
fields whose elements are maps with exactly the activity keys and
thinking-point keys respectively, `from_dict` succeeds and
`to_dict (from_dict d)` equals `d` in the sense of Python `==`
(order-insensitive dict equality). -/
theorem C10_roundtrip :
    ∀ d : PyDict,
      PyWF (.dict d) →
      (d.map Prod.fst).Perm requiredFields →
      (∀ k ∈ (["lesson_name", "grade_level", "subject", "textbook_version", "lesson_period",
        "teacher_school", "teacher_name", "summary", "content_analysis", "learner_analysis",
        "learning_objectives", "lesson_structure", "blackboard_design", "homework_extension",
        "materials_design"] : List String), ∃ s, pyGet d k = some (.str s)) →
      (∀ v, pyGet d "learning_activities" = some v →
        ∃ xs, v = PyVal.list xs ∧
          ∀ x ∈ xs, ∃ ad, x = PyVal.dict ad ∧ hasExactKeys ad requiredActivityFields = true) →
      (∀ v, pyGet d "reflection_thinking_points" = some v →
        ∃ xs, v = PyVal.list xs ∧
          ∀ x ∈ xs, ∃ pd, x = PyVal.dict pd ∧ hasExactKeys pd requiredPointFields = true) →
      ∃ r, TeachingDesignData.from_dict d = .ok r ∧
        PyEquiv (.dict (TeachingDesignData.to_dict r)) (.dict d) := by
  intro d hwf hperm _hscalars hla hlp
  have hkeyA : pyHasKey d "learning_activities" = true :=
    pyHasKey_of_mem_keys (hperm.mem_iff.mpr (by decide))
  have hkeyP : pyHasKey d "reflection_thinking_points" = true :=
    pyHasKey_of_mem_keys (hperm.mem_iff.mpr (by decide))
  obtain ⟨va, hva⟩ := Option.isSome_iff_exists.mp hkeyA
  obtain ⟨vp, hvp⟩ := Option.isSome_iff_exists.mp hkeyP
  obtain ⟨xs, rfl, hxs⟩ := hla va hva
  obtain ⟨ys, rfl, hys⟩ := hlp vp hvp
  have hxswf : ∀ x ∈ xs, PyWF x := by
    have hl := pyWF_of_lookup hwf hva
    cases hl with
    | list hm => exact hm
  have hyswf : ∀ x ∈ ys, PyWF x := by
    have hl := pyWF_of_lookup hwf hvp
    cases hl with
    | list hm => exact hm
  obtain ⟨as, has⟩ := mapM_mkActivityInfo_ok xs hxs
  obtain ⟨ps, hps⟩ := mapM_mkThinkingPoint_ok ys hys
  refine ⟨⟨pyGetD d "lesson_name" (.str ""), pyGetD d "grade_level" (.str ""),
    pyGetD d "subject" (.str ""), pyGetD d "textbook_version" (.str ""),
    pyGetD d "lesson_period" (.str ""), pyGetD d "teacher_school" (.str ""),
    pyGetD d "teacher_name" (.str ""), pyGetD d "summary" (.str ""),
    pyGetD d "content_analysis" (.str ""), pyGetD d "learner_analysis" (.str ""),
    pyGetD d "learning_objectives" (.str ""), pyGetD d "lesson_structure" (.str ""),
    as, pyGetD d "blackboard_design" (.str ""),
    pyGetD d "homework_extension" (.str ""), pyGetD d "materials_design" (.str ""),
    ps⟩, ?_, ?_⟩
  · unfold TeachingDesignData.from_dict
    rw [hva, hvp]
    simp [pyIter, has, hps, Bind.bind, Except.bind, pure, Except.pure]
    try rw [show List.mapM.loop mkActivityInfo xs [] = Except.ok as from has]
    try rw [show List.mapM.loop mkThinkingPoint ys [] = Except.ok ps from hps]
  · have hlen : d.length = 17 := by
      have h2 := hperm.length_eq
      rw [List.length_map] at h2
      simpa using h2
    refine PyEquiv.dict ?_ ?_ ?_
    · simp [TeachingDesignData.to_dict, hlen]
    · intro kv hkv
      simp only [TeachingDesignData.to_dict, List.mem_cons, List.not_mem_nil, or_false] at hkv
      rcases hkv with rfl|rfl|rfl|rfl|rfl|rfl|rfl|rfl|rfl|rfl|rfl|rfl|rfl|rfl|rfl|rfl|rfl <;>
        (refine pyHasKey_of_mem_keys (hperm.mem_iff.mpr ?_); simp [requiredFields])
    · intro kv hkv w hw
      simp only [TeachingDesignData.to_dict, List.mem_cons, List.not_mem_nil, or_false] at hkv
      rcases hkv with rfl|rfl|rfl|rfl|rfl|rfl|rfl|rfl|rfl|rfl|rfl|rfl|rfl|rfl|rfl|rfl|rfl <;>
        first
          | (rw [pyGetD_of_pyGet hw]
             exact pyEquiv_refl (pyWF_of_lookup hwf hw))
          | (rw [hva] at hw
             injection hw with hw2
             subst hw2
             exact PyEquiv.list (forall2_activities xs as has hxswf hxs))
          | (rw [hvp] at hw
             injection hw with hw2
             subst hw2
             exact PyEquiv.list (forall2_points ys ps hps hyswf hys))

/-- Witness for C10: the round trip applied to a concrete dict whose
top-level keys and entry keys are in a permuted order. -/
theorem C10_roundtrip_witness :
    ∃ r, TeachingDesignData.from_dict c10Data = .ok r ∧
      PyEquiv (.dict (TeachingDesignData.to_dict r)) (.dict c10Data) :=
  C10_roundtrip c10Data
    (by
      refine PyWF.dict (by decide) ?_
      intro kv hkv
      simp only [c10Data, List.mem_cons, List.not_mem_nil, or_false] at hkv
      rcases hkv with rfl|rfl|rfl|rfl|rfl|rfl|rfl|rfl|rfl|rfl|rfl|rfl|rfl|rfl|rfl|rfl|rfl <;>
        first
          | exact PyWF.str _
          | (refine PyWF.list ?_
             intro v hv
             simp only [List.mem_singleton] at hv
             subst hv
             refine PyWF.dict (by decide) ?_
             intro kv2 hkv2
             simp only [List.mem_cons, List.not_mem_nil, or_false] at hkv2
             rcases hkv2 with rfl | rfl | rfl | rfl <;> exact PyWF.str _))
    (by decide)
    (by
      intro k hk
      fin_cases hk <;> exact ⟨_, rfl⟩)
    (by
      intro v hv
      rw [show pyGet c10Data "learning_activities" =
        some (PyVal.list [PyVal.dict [("activity_intent", .str "意图甲"), ("name", .str "环节一"),
          ("teacher_activity", .str "教师A"), ("student_activity", .str "学生A")]]) from rfl] at hv
      cases hv
      refine ⟨_, rfl, ?_⟩
      intro x hx
      simp only [List.mem_singleton] at hx
      subst hx
      exact ⟨_, rfl, by decide⟩)
    (by
      intro v hv
      rw [show pyGet c10Data "reflection_thinking_points" =
        some (PyVal.list [PyVal.dict [("description", .str "说明文字"),
          ("point_type", .str "认知冲突")]]) from rfl] at hv
      cases hv
      refine ⟨_, rfl, ?_⟩
      intro x hx
      simp only [List.mem_singleton] at hx
      subst hx
      exact ⟨_, rfl, by decide⟩)
